import Mathlib

/-!
Shallow embedding of the presentation-surface lifecycle state machine of
`src/ttauri/GUI/Window_vulkan.cpp` (class `Window_vulkan`): the `build()` /
`teardown()` resource cascade and the `render()` frame-submission protocol.

External collaborators (the Vulkan device, the drawable surface and the widget
tree) are modelled as an `Env` of oracle answers to the calls the code makes;
the mutable `Window_vulkan` object is a `Window` record.  Each operation
returns the updated window together with a trace of the externally visible
actions it performed (`List Event`), and fatal conditions (`TTAURI_THROW` of a
`gui_error`, `LOG_FATAL`) become `Except.error`.
-/

namespace TTauriGUI

/-- Modelled from the spec: the lifecycle `State` enumeration is declared in
`Window_base.hpp`, which is not among the sources; the spec gives the order
`NoDevice < NoSurface < NoSwapchain < ReadyToRender` with the loss markers
`SwapchainLost, SurfaceLost, DeviceLost, WindowLost` logically above
`ReadyToRender`, plus a terminal `NoWindow`.  `NoWindow` is placed below every
other value so that the cascade guard `state >= State::SwapchainLost` used by
`Window_vulkan::teardown` is false for it, matching the spec: `NoWindow` is
terminal, so a further teardown must be a no-op. -/
inductive State
  | NoWindow
  | NoDevice
  | NoSurface
  | NoSwapchain
  | ReadyToRender
  | SwapchainLost
  | SurfaceLost
  | DeviceLost
  | WindowLost
deriving DecidableEq, Repr

/-- Ordinal value of a lifecycle state, realizing the ordering of the C++
enumeration; the source compares states with `>=` on this order. -/
def State.ord : State → Nat
  | .NoWindow => 0
  | .NoDevice => 1
  | .NoSurface => 2
  | .NoSwapchain => 3
  | .ReadyToRender => 4
  | .SwapchainLost => 5
  | .SurfaceLost => 6
  | .DeviceLost => 7
  | .WindowLost => 8

/-- The five render stages (draw pipelines) of the chain, in their fixed order
`flatPipeline, boxPipeline, imagePipeline, SDFPipeline, toneMapperPipeline`. -/
inductive StageId
  | flat
  | box
  | image
  | sdf
  | toneMapper
deriving DecidableEq, Repr

/-- The two per-window semaphores of `Window_vulkan`. -/
inductive Semaphore
  | imageAvailable
  | renderFinished
deriving DecidableEq, Repr

/-- The only pipeline stage the submission protocol waits at
(`vk::PipelineStageFlagBits::eColorAttachmentOutput`). -/
inductive PipelineStageFlag
  | colorAttachmentOutput
deriving DecidableEq, Repr

/-- Externally visible actions performed by the window code, recorded in call
order.  `submit waits n signals fence` records one `vkQueueSubmit` on the
graphics queue with its wait-semaphore/stage pairs, number of command buffers,
signal semaphores, and whether the `renderFinishedFence` was passed. -/
inductive Event
  | waitIdle
  | stageTeardownForSwapchainLost (p : StageId)
  | stageTeardownForSurfaceLost (p : StageId)
  | stageTeardownForDeviceLost (p : StageId)
  | stageTeardownForWindowLost (p : StageId)
  | releaseSemaphores
  | releaseCommandBuffers
  | releaseFramebuffers
  | releaseRenderPass
  | releaseSwapchain
  | releaseDepthImage
  | releaseColorImage
  | releaseSurface
  | releaseDevice
  | closingWindow
  | stageBuildForNewDevice (p : StageId)
  | stageBuildForNewSurface (p : StageId)
  | stageBuildForNewSwapchain (p : StageId) (subpassIndex : Nat)
  | createSurface
  | createSwapchain
  | createDepthImage
  | createColorImage
  | createRenderPass
  | createFramebuffers
  | createCommandBuffer
  | createSemaphore
  | createFence (signaled : Bool)
  | windowChangedSize
  | resizeCheck
  | setWindowSize
  | acquire (timeout : Nat)
  | fenceWait
  | fenceReset
  | draw
  | recordCommandBuffer
  | submit (waitSemaphores : List (Semaphore × PipelineStageFlag))
      (nrCommandBuffers : Nat) (signalSemaphores : List Semaphore) (withFence : Bool)
  | present (waitSemaphores : List Semaphore)
deriving DecidableEq, Repr

/-- Mirrors the fields of `vk::Extent2D` used by the code. -/
structure Extent2D where
  width : Nat
  height : Nat
deriving DecidableEq, Repr

/-- Mirrors the fields of `vk::SurfaceCapabilitiesKHR` consumed by
`Window_vulkan::getImageCountAndExtent`. -/
structure SurfaceCapabilities where
  minImageCount : Nat
  maxImageCount : Nat
  currentExtent : Extent2D
deriving DecidableEq, Repr

/-- Outcome of one `getSurfaceCapabilitiesKHR` call: either the capability
record, or the `vk::SurfaceLostKHRError` exception. -/
inductive CapabilityQuery
  | caps (c : SurfaceCapabilities)
  | surfaceLostError
deriving DecidableEq, Repr

/-- Results `acquireNextImageKHR` can return at the call site in
`Window_vulkan::acquireNextImageFromSwapchain`; `unknown` stands for any other
`vk::Result` value, which the code raises as a fatal `gui_error`. -/
inductive AcquireOutcome
  | success
  | suboptimalKHR
  | errorOutOfDateKHR
  | errorSurfaceLostKHR
  | timeout
  | unknown
deriving DecidableEq, Repr

/-- Outcomes of `presentKHR` at the call site in
`Window_vulkan::presentImageToQueue`: a returned result (`success`,
`suboptimalKHR`, or an unknown result raised as fatal) or one of the two
caught exceptions (`vk::OutOfDateKHRError`, `vk::SurfaceLostKHRError`). -/
inductive PresentOutcome
  | success
  | suboptimalKHR
  | outOfDateKHRError
  | surfaceLostKHRError
  | unknown
deriving DecidableEq, Repr

/-- Outcomes of `createSwapchainKHR` at the call site in
`Window_vulkan::buildSwapchain`; `unknown` is raised as a fatal `gui_error`. -/
inductive SwapchainCreateOutcome
  | success
  | errorSurfaceLostKHR
  | unknown
deriving DecidableEq, Repr

/-- Fatal conditions: `TTAURI_THROW(gui_error(...))` and `LOG_FATAL`. -/
inductive GuiError
  | unknownAcquireResult
  | unknownPresentResult
  | unknownSwapchainResult
  | missingCurrentExtent
deriving DecidableEq, Repr

/-- The widget-tree collaborator, reduced to the answers the render loop reads
from it this tick: the preferred-size interval (`preferred_size().minimum()`
and `.maximum()`, per dimension) and the boolean results of
`update_constraints` and `update_layout`. -/
structure WidgetTree where
  minimum_width : Nat
  minimum_height : Nat
  maximum_width : Nat
  maximum_height : Nat
  update_constraints_result : Bool
  update_layout_result : Bool
deriving DecidableEq, Repr

/-- External conditions for one tick: the oracle answers of the device, the
surface and the widget tree to the calls the window code makes.
`defaultNumberOfSwapchainImages` is the configured default image count (a
constant of the class declared in a header not among the sources). -/
structure Env where
  widget : WidgetTree
  surfaceScore : Int
  defaultNumberOfSwapchainImages : Nat
  capabilitiesOnRead : CapabilityQuery
  capabilitiesOnCheck : CapabilityQuery
  createSwapchainOutcome : SwapchainCreateOutcome
  acquireOutcome : AcquireOutcome
  acquireImageIndex : Nat
  presentOutcome : PresentOutcome
deriving DecidableEq, Repr

/-- The mutable state of a `Window_vulkan` object: the lifecycle state, which
resources are currently live (`hasDevice` is `_device != nullptr`), the cached
swapchain parameters, and the request flags consumed by `render`. -/
structure Window where
  state : State
  hasDevice : Bool
  hasSurface : Bool
  hasSwapchain : Bool
  hasRenderPass : Bool
  hasFramebuffers : Bool
  hasCommandBuffer : Bool
  hasSemaphores : Bool
  nrSwapchainImages : Nat
  swapchainImageExtent : Extent2D
  currentWindowExtent : Extent2D
  requestResize : Bool
  requestLayout : Bool
  requestRedraw : Bool
  requestSettingChange : Bool
deriving DecidableEq, Repr

/-- Value of `std::numeric_limits of uint32_t ... ::max()`. -/
def UINT32_MAX : Nat := 4294967295

/-- Mirrors `std::clamp(v, lo, hi)`. -/
def clampNat (v lo hi : Nat) : Nat :=
  if v < lo then lo else if hi < v then hi else v

/-- Result of `Window_vulkan::getImageCountAndExtent`: the clamped image count
and the current extent, or the caught surface-lost exception, or the
`LOG_FATAL` when the surface does not supply a current extent. -/
inductive ImageCountAndExtent
  | ok (imageCount : Nat) (extent : Extent2D)
  | surfaceLost
  | fatal
deriving DecidableEq, Repr

/-- Mirrors `Window_vulkan::getImageCountAndExtent`: queries the surface
capabilities, fails fatally when `currentExtent` is unset (a dimension equal
to `UINT32_MAX`), and clamps the configured default image count to the
reported `[minImageCount, maxImageCount]` range, with a `maxImageCount` of 0
meaning 10. -/
def getImageCountAndExtent (env : Env) (q : CapabilityQuery) : ImageCountAndExtent :=
  match q with
  | .surfaceLostError => .surfaceLost
  | .caps c =>
    if c.currentExtent.width = UINT32_MAX ∨ c.currentExtent.height = UINT32_MAX then
      .fatal
    else
      let minImageCount := c.minImageCount
      let maxImageCount := if c.maxImageCount ≠ 0 then c.maxImageCount else 10
      .ok (clampNat env.defaultNumberOfSwapchainImages minImageCount maxImageCount) c.currentExtent

/-- Mirrors `Window_vulkan::readSurfaceExtent`: reads the image count and
extent into the window; returns `false` (declining to build) when the surface
was lost (after setting the state to `SurfaceLost`) or when the extent falls
below the widget minimum or above the widget maximum preferred size. -/
def readSurfaceExtent (env : Env) (w : Window) : Except GuiError (Window × Bool) :=
  match getImageCountAndExtent env env.capabilitiesOnRead with
  | .fatal => .error .missingCurrentExtent
  | .surfaceLost => .ok ({w with state := State.SurfaceLost}, false)
  | .ok n e =>
    let w := {w with nrSwapchainImages := n, swapchainImageExtent := e}
    if e.width < env.widget.minimum_width ∨ e.height < env.widget.minimum_height then
      .ok (w, false)
    else if env.widget.maximum_width < e.width ∨ env.widget.maximum_height < e.height then
      .ok (w, false)
    else
      .ok (w, true)

/-- Mirrors `Window_vulkan::checkSurfaceExtent`: re-reads the capabilities and
reports whether the image count and extent still equal the values the
swapchain was just created with; a surface-lost exception sets the state. -/
def checkSurfaceExtent (env : Env) (w : Window) : Except GuiError (Window × Bool) :=
  match getImageCountAndExtent env env.capabilitiesOnCheck with
  | .fatal => .error .missingCurrentExtent
  | .surfaceLost => .ok ({w with state := State.SurfaceLost}, false)
  | .ok n e =>
    .ok (w, decide (n = w.nrSwapchainImages ∧ e = w.swapchainImageExtent))

/-- Mirrors `Window_vulkan::buildSurface`: creates the surface and reports
whether the device scores it positively. -/
def buildSurface (env : Env) (w : Window) : Window × Bool × List Event :=
  ({w with hasSurface := true}, decide (0 < env.surfaceScore), [Event.createSurface])

/-- Mirrors `Window_vulkan::buildSwapchain`: creates the swapchain and, on
success, the depth and color attachment images; returns the state the caller
should adopt (`ReadyToRender` on success, `SurfaceLost` on
`eErrorSurfaceLostKHR`) and raises a fatal error on any other result. -/
def buildSwapchain (env : Env) (w : Window) : Except GuiError (Window × State × List Event) :=
  match env.createSwapchainOutcome with
  | .errorSurfaceLostKHR => .ok (w, State.SurfaceLost, [])
  | .unknown => .error .unknownSwapchainResult
  | .success =>
    .ok ({w with hasSwapchain := true}, State.ReadyToRender,
      [Event.createSwapchain, Event.createDepthImage, Event.createColorImage])

/-- Mirrors `Window_vulkan::teardownSwapchain`: destroys the swapchain, the
depth image and the color image. -/
def teardownSwapchain (w : Window) : Window × List Event :=
  ({w with hasSwapchain := false},
    [Event.releaseSwapchain, Event.releaseDepthImage, Event.releaseColorImage])

/-- Mirrors `Window_vulkan::buildRenderPasses`. -/
def buildRenderPasses (w : Window) : Window × List Event :=
  ({w with hasRenderPass := true}, [Event.createRenderPass])

/-- Mirrors `Window_vulkan::buildFramebuffers` (one framebuffer and image view
per swapchain image, collapsed into a single trace entry). -/
def buildFramebuffers (w : Window) : Window × List Event :=
  ({w with hasFramebuffers := true}, [Event.createFramebuffers])

/-- Mirrors `Window_vulkan::buildCommandBuffers`. -/
def buildCommandBuffers (w : Window) : Window × List Event :=
  ({w with hasCommandBuffer := true}, [Event.createCommandBuffer])

/-- Mirrors `Window_vulkan::buildSemaphores`: creates the image-available and
render-finished semaphores and the render-finished fence, the fence with
`vk::FenceCreateFlagBits::eSignaled`. -/
def buildSemaphores (w : Window) : Window × List Event :=
  ({w with hasSemaphores := true},
    [Event.createSemaphore, Event.createSemaphore, Event.createFence true])

/-- The five `teardownForSwapchainLost` pipeline notifications, in source
order: tone-mapper first, flat last. -/
def stageTeardownsForSwapchainLost : List Event :=
  [Event.stageTeardownForSwapchainLost StageId.toneMapper,
   Event.stageTeardownForSwapchainLost StageId.sdf,
   Event.stageTeardownForSwapchainLost StageId.image,
   Event.stageTeardownForSwapchainLost StageId.box,
   Event.stageTeardownForSwapchainLost StageId.flat]

/-- The five `teardownForSurfaceLost` pipeline notifications, in source order. -/
def stageTeardownsForSurfaceLost : List Event :=
  [Event.stageTeardownForSurfaceLost StageId.toneMapper,
   Event.stageTeardownForSurfaceLost StageId.sdf,
   Event.stageTeardownForSurfaceLost StageId.image,
   Event.stageTeardownForSurfaceLost StageId.box,
   Event.stageTeardownForSurfaceLost StageId.flat]

/-- The five `teardownForDeviceLost` pipeline notifications, in source order. -/
def stageTeardownsForDeviceLost : List Event :=
  [Event.stageTeardownForDeviceLost StageId.toneMapper,
   Event.stageTeardownForDeviceLost StageId.sdf,
   Event.stageTeardownForDeviceLost StageId.image,
   Event.stageTeardownForDeviceLost StageId.box,
   Event.stageTeardownForDeviceLost StageId.flat]

/-- The five `teardownForWindowLost` pipeline notifications, in source order. -/
def stageTeardownsForWindowLost : List Event :=
  [Event.stageTeardownForWindowLost StageId.toneMapper,
   Event.stageTeardownForWindowLost StageId.sdf,
   Event.stageTeardownForWindowLost StageId.image,
   Event.stageTeardownForWindowLost StageId.box,
   Event.stageTeardownForWindowLost StageId.flat]

/-- The five `buildForNewDevice` pipeline calls, in source order: flat first. -/
def stageBuildsForNewDevice : List Event :=
  [Event.stageBuildForNewDevice StageId.flat,
   Event.stageBuildForNewDevice StageId.box,
   Event.stageBuildForNewDevice StageId.image,
   Event.stageBuildForNewDevice StageId.sdf,
   Event.stageBuildForNewDevice StageId.toneMapper]

/-- The five `buildForNewSurface` pipeline calls, in source order. -/
def stageBuildsForNewSurface : List Event :=
  [Event.stageBuildForNewSurface StageId.flat,
   Event.stageBuildForNewSurface StageId.box,
   Event.stageBuildForNewSurface StageId.image,
   Event.stageBuildForNewSurface StageId.sdf,
   Event.stageBuildForNewSurface StageId.toneMapper]

/-- The five `buildForNewSwapchain(renderPass, subpassIndex, extent)` pipeline
calls with their subpass indices 0..4, in source order. -/
def stageBuildsForNewSwapchain : List Event :=
  [Event.stageBuildForNewSwapchain StageId.flat 0,
   Event.stageBuildForNewSwapchain StageId.box 1,
   Event.stageBuildForNewSwapchain StageId.image 2,
   Event.stageBuildForNewSwapchain StageId.sdf 3,
   Event.stageBuildForNewSwapchain StageId.toneMapper 4]

/-- Modelled from the spec: `Window_base::windowChangedSize` is declared
outside the sources at hand; per the spec the window records the new extent
reported by the freshly built swapchain. -/
def windowChangedSize (w : Window) : Window :=
  {w with currentWindowExtent := w.swapchainImageExtent}

/-- The `if (state == State::NoSwapchain)` block of `Window_vulkan::build`:
reads the surface extent (declining, with the state forced back to
`NoSwapchain`, when it is out of range or the surface is lost), builds the
swapchain, re-checks the extent (destroying the just-built swapchain on a
mismatch), then builds render passes, framebuffers, command buffers and
semaphores, notifies the pipelines, and reaches `ReadyToRender`. -/
def buildStageSwapchain (env : Env) (w : Window) (tr : List Event) :
    Except GuiError (Window × List Event) :=
  if w.state = State.NoSwapchain then
    match readSurfaceExtent env w with
    | .error e => .error e
    | .ok (w, false) => .ok ({w with state := State.NoSwapchain}, tr)
    | .ok (w, true) =>
      match buildSwapchain env w with
      | .error e => .error e
      | .ok (w, s, tr2) =>
        if s ≠ State.ReadyToRender then
          .ok ({w with state := s}, tr ++ tr2)
        else
          match checkSurfaceExtent env w with
          | .error e => .error e
          | .ok (w, false) =>
            let (w, tr3) := teardownSwapchain w
            .ok (w, tr ++ tr2 ++ tr3)
          | .ok (w, true) =>
            let (w, tr4) := buildRenderPasses w
            let (w, tr5) := buildFramebuffers w
            let (w, tr6) := buildCommandBuffers w
            let (w, tr7) := buildSemaphores w
            let w := windowChangedSize w
            .ok ({w with state := State.ReadyToRender},
              tr ++ tr2 ++ tr4 ++ tr5 ++ tr6 ++ tr7 ++ stageBuildsForNewSwapchain ++
                [Event.windowChangedSize])
  else
    .ok (w, tr)

/-- The `if (state == State::NoSurface)` block of `Window_vulkan::build`:
builds the surface; a non-positive score sets the state to `DeviceLost`,
otherwise the pipelines are notified and the swapchain stage follows. -/
def buildStageSurface (env : Env) (w : Window) (tr : List Event) :
    Except GuiError (Window × List Event) :=
  if w.state = State.NoSurface then
    match buildSurface env w with
    | (w, false, tr2) => .ok ({w with state := State.DeviceLost}, tr ++ tr2)
    | (w, true, tr2) =>
      buildStageSwapchain env {w with state := State.NoSwapchain}
        (tr ++ tr2 ++ stageBuildsForNewSurface)
  else
    buildStageSwapchain env w tr

/-- Mirrors `Window_vulkan::build`: runs the forward transitions in order
starting from the current state, stopping at the first stage that cannot
complete. -/
def build (env : Env) (w : Window) : Except GuiError (Window × List Event) :=
  if w.state = State.NoDevice then
    if w.hasDevice then
      buildStageSurface env {w with state := State.NoSurface} stageBuildsForNewDevice
    else
      buildStageSurface env w []
  else
    buildStageSurface env w []

/-- Mirrors `Window_vulkan::teardown`: when the state is at or above
`SwapchainLost`, waits for the GPU to go idle and cascades the teardown
downward, stopping at the boundary implied by the loss marker; at
`WindowLost` the delegate callback `closingWindow` is invoked and the window
reaches the terminal `NoWindow`. -/
def teardown (w : Window) : Window × List Event :=
  if State.SwapchainLost.ord ≤ w.state.ord then
    let w1 := {w with hasSemaphores := false, hasCommandBuffer := false,
                      hasFramebuffers := false, hasRenderPass := false, hasSwapchain := false}
    let tr1 := Event.waitIdle :: stageTeardownsForSwapchainLost ++
      [Event.releaseSemaphores, Event.releaseCommandBuffers, Event.releaseFramebuffers,
       Event.releaseRenderPass, Event.releaseSwapchain, Event.releaseDepthImage,
       Event.releaseColorImage]
    if State.SurfaceLost.ord ≤ w.state.ord then
      let w2 := {w1 with hasSurface := false}
      let tr2 := tr1 ++ stageTeardownsForSurfaceLost ++ [Event.releaseSurface]
      if State.DeviceLost.ord ≤ w.state.ord then
        let w3 := {w2 with hasDevice := false}
        let tr3 := tr2 ++ stageTeardownsForDeviceLost ++ [Event.releaseDevice]
        if State.WindowLost.ord ≤ w.state.ord then
          ({w3 with state := State.NoWindow},
            tr3 ++ stageTeardownsForWindowLost ++ [Event.closingWindow])
        else
          ({w3 with state := State.NoDevice}, tr3)
      else
        ({w2 with state := State.NoSurface}, tr2)
    else
      ({w1 with state := State.NoSwapchain}, tr1)
  else
    (w, [])

/-- Mirrors `Window_vulkan::acquireNextImageFromSwapchain`: a zero-timeout
(non-blocking) `acquireNextImageKHR` poll; success yields the framebuffer
index, suboptimal and out-of-date set `SwapchainLost`, surface-lost sets
`SurfaceLost`, timeout yields no image with the state unchanged, and any other
result is a fatal error. -/
def acquireNextImageFromSwapchain (env : Env) (w : Window) :
    Except GuiError (Window × Option Nat × List Event) :=
  match env.acquireOutcome with
  | .success => .ok (w, some env.acquireImageIndex, [Event.acquire 0])
  | .suboptimalKHR => .ok ({w with state := State.SwapchainLost}, none, [Event.acquire 0])
  | .errorOutOfDateKHR => .ok ({w with state := State.SwapchainLost}, none, [Event.acquire 0])
  | .errorSurfaceLostKHR => .ok ({w with state := State.SurfaceLost}, none, [Event.acquire 0])
  | .timeout => .ok (w, none, [Event.acquire 0])
  | .unknown => .error .unknownAcquireResult

/-- Mirrors `Window_vulkan::presentImageToQueue`: presents the acquired image
waiting on the given semaphore; suboptimal and the caught out-of-date
exception set `SwapchainLost`, the caught surface-lost exception sets
`SurfaceLost`, and any other result is a fatal error. -/
def presentImageToQueue (env : Env) (w : Window) (_frameBufferIndex : Nat)
    (semaphore : Semaphore) : Except GuiError (Window × List Event) :=
  match env.presentOutcome with
  | .success => .ok (w, [Event.present [semaphore]])
  | .suboptimalKHR => .ok ({w with state := State.SwapchainLost}, [Event.present [semaphore]])
  | .outOfDateKHRError => .ok ({w with state := State.SwapchainLost}, [Event.present [semaphore]])
  | .surfaceLostKHRError => .ok ({w with state := State.SurfaceLost}, [Event.present [semaphore]])
  | .unknown => .error .unknownPresentResult

/-- The preferred-size check of `Window_vulkan::render` (its lines around
`requestResize.exchange(false)`): the `requestResize` flag is always consumed;
when the flag was set or the current extent falls below the widget minimum the
window asks the OS to resize to the minimum, else when it exceeds the maximum,
to the maximum.  The comparison operators on extent intervals are declared
outside the sources at hand and are modelled from the spec (current extent
outside the reported `[minimum, maximum]` preferred-size range). -/
def renderSizeCheck (env : Env) (w : Window) : Window × List Event :=
  if w.requestResize ∨ w.currentWindowExtent.width < env.widget.minimum_width ∨
      w.currentWindowExtent.height < env.widget.minimum_height then
    ({w with requestResize := false,
             currentWindowExtent := ⟨env.widget.minimum_width, env.widget.minimum_height⟩},
      [Event.resizeCheck, Event.setWindowSize])
  else if env.widget.maximum_width < w.currentWindowExtent.width ∨
      env.widget.maximum_height < w.currentWindowExtent.height then
    ({w with requestResize := false,
             currentWindowExtent := ⟨env.widget.maximum_width, env.widget.maximum_height⟩},
      [Event.resizeCheck, Event.setWindowSize])
  else
    ({w with requestResize := false}, [Event.resizeCheck])

/-- Mirrors `Window_vulkan::render`: tears down and rebuilds, bails out when
not `ReadyToRender`, performs the preferred-size check, computes whether a
redraw is needed (the widget layout result or the `requestRedraw` flag),
returns on an idle tick, then acquires, waits on and resets the
render-finished fence, draws, records and submits the command buffer (waiting
on the image-available semaphore at the color-attachment-output stage and
signaling the render-finished semaphore), signals the render-finished fence
with a trailing empty submission, presents waiting on the render-finished
semaphore, and tears down again. -/
def render (env : Env) (w : Window) : Except GuiError (Window × List Event) :=
  let (w, tr1) := teardown w
  match build env w with
  | .error e => .error e
  | .ok (w, tr2) =>
    let tr := tr1 ++ tr2
    if w.state ≠ State.ReadyToRender then
      .ok (w, tr)
    else
      let _need_reconstrain := w.requestSettingChange
      let w := {w with requestSettingChange := false}
      let constraints_have_changed := env.widget.update_constraints_result
      let (w, tr3) := renderSizeCheck env w
      let tr := tr ++ tr3
      let _need_layout := w.requestLayout || constraints_have_changed
      let w := {w with requestLayout := false}
      let need_redraw := env.widget.update_layout_result || w.requestRedraw
      let w := {w with requestRedraw := false}
      if !need_redraw then
        .ok (w, tr)
      else
        match acquireNextImageFromSwapchain env w with
        | .error e => .error e
        | .ok (w, none, trA) => .ok (w, tr ++ trA)
        | .ok (w, some frameBufferIndex, trA) =>
          let tr := tr ++ trA ++
            [Event.fenceWait, Event.fenceReset, Event.draw, Event.recordCommandBuffer,
             Event.submit [(Semaphore.imageAvailable, PipelineStageFlag.colorAttachmentOutput)]
               1 [Semaphore.renderFinished] false,
             Event.submit [] 0 [] true]
          match presentImageToQueue env w frameBufferIndex Semaphore.renderFinished with
          | .error e => .error e
          | .ok (w, trP) =>
            let (w, trT) := teardown w
            .ok (w, tr ++ trP ++ trT)

/-- GPU frame work in the sense of the frame-submission protocol: a
swapchain-image acquire, a fence wait or reset, command-buffer recording, a
queue submission, or a present. -/
def Event.isGpuFrameWork : Event → Bool
  | .acquire _ => true
  | .fenceWait => true
  | .fenceReset => true
  | .recordCommandBuffer => true
  | .submit _ _ _ _ => true
  | .present _ => true
  | _ => false

/-- Creation of a GPU object of one of the kinds `build` can allocate:
swapchain, attachment image, framebuffer, render pass, command buffer,
semaphore or fence. -/
def Event.isGpuAllocation : Event → Bool
  | .createSwapchain => true
  | .createDepthImage => true
  | .createColorImage => true
  | .createRenderPass => true
  | .createFramebuffers => true
  | .createCommandBuffer => true
  | .createSemaphore => true
  | .createFence _ => true
  | _ => false

/-- Operations on the render-finished fence performed by the frame loop: the
wait, the reset, and a queue submission handed the fence to signal. -/
def Event.isFenceOp : Event → Bool
  | .fenceWait => true
  | .fenceReset => true
  | .submit _ _ _ withFence => withFence
  | _ => false

/-- Events `build` may emit: surface/swapchain-side construction, the one
compensating swapchain destruction of the extent-mismatch path, pipeline
build notifications and the size bookkeeping. -/
def Event.isBuildSide : Event → Bool
  | .stageBuildForNewDevice _ => true
  | .stageBuildForNewSurface _ => true
  | .stageBuildForNewSwapchain _ _ => true
  | .createSurface => true
  | .createSwapchain => true
  | .createDepthImage => true
  | .createColorImage => true
  | .createRenderPass => true
  | .createFramebuffers => true
  | .createCommandBuffer => true
  | .createSemaphore => true
  | .createFence _ => true
  | .releaseSwapchain => true
  | .releaseDepthImage => true
  | .releaseColorImage => true
  | .windowChangedSize => true
  | _ => false

/-- Events `teardown` may emit: the wait-idle, pipeline teardown
notifications, resource releases and the delegate callback. -/
def Event.isTeardownSide : Event → Bool
  | .waitIdle => true
  | .stageTeardownForSwapchainLost _ => true
  | .stageTeardownForSurfaceLost _ => true
  | .stageTeardownForDeviceLost _ => true
  | .stageTeardownForWindowLost _ => true
  | .releaseSemaphores => true
  | .releaseCommandBuffers => true
  | .releaseFramebuffers => true
  | .releaseRenderPass => true
  | .releaseSwapchain => true
  | .releaseDepthImage => true
  | .releaseColorImage => true
  | .releaseSurface => true
  | .releaseDevice => true
  | .closingWindow => true
  | _ => false

/-- Teardown actions belonging to a boundary strictly deeper than the
swapchain boundary: surface-, device- and window-level notifications and
releases, and the delegate callback. -/
def Event.isDeeperThanSwapchain : Event → Bool
  | .stageTeardownForSurfaceLost _ => true
  | .stageTeardownForDeviceLost _ => true
  | .stageTeardownForWindowLost _ => true
  | .releaseSurface => true
  | .releaseDevice => true
  | .closingWindow => true
  | _ => false

/-- The fixed action sequence of the swapchain-level teardown cascade, in
source order: wait-idle, the five pipeline notifications, then release of the
synchronization primitives, the command buffer, the framebuffers, the render
pass, and the swapchain with its depth and color attachment images. -/
def swapchainTeardownSeq : List Event :=
  Event.waitIdle :: stageTeardownsForSwapchainLost ++
    [Event.releaseSemaphores, Event.releaseCommandBuffers, Event.releaseFramebuffers,
     Event.releaseRenderPass, Event.releaseSwapchain, Event.releaseDepthImage,
     Event.releaseColorImage]

section HelperLemmas

theorem teardown_trace_isTeardownSide (w : Window) :
    ((teardown w).2).all Event.isTeardownSide = true := by
  unfold teardown
  split
  · split
    · split
      · split <;> rfl
      · rfl
    · rfl
  · rfl

theorem teardown_fst_requestRedraw (w : Window) :
    ((teardown w).1).requestRedraw = w.requestRedraw := by
  unfold teardown
  split
  · split
    · split
      · split <;> rfl
      · rfl
    · rfl
  · rfl

theorem readSurfaceExtent_inv (env : Env) (w wr : Window) (b : Bool)
    (h : readSurfaceExtent env w = .ok (wr, b)) :
    wr.requestRedraw = w.requestRedraw ∧ wr.hasSwapchain = w.hasSwapchain ∧
      wr.hasSurface = w.hasSurface ∧ wr.hasDevice = w.hasDevice := by
  unfold readSurfaceExtent at h
  split at h
  · exact absurd h (by simp)
  · simp only [Except.ok.injEq, Prod.mk.injEq] at h
    obtain ⟨h1, -⟩ := h
    subst h1
    exact ⟨rfl, rfl, rfl, rfl⟩
  · split at h
    · simp only [Except.ok.injEq, Prod.mk.injEq] at h
      obtain ⟨h1, -⟩ := h
      subst h1
      exact ⟨rfl, rfl, rfl, rfl⟩
    · split at h <;>
      · simp only [Except.ok.injEq, Prod.mk.injEq] at h
        obtain ⟨h1, -⟩ := h
        subst h1
        exact ⟨rfl, rfl, rfl, rfl⟩

theorem checkSurfaceExtent_inv (env : Env) (w wr : Window) (b : Bool)
    (h : checkSurfaceExtent env w = .ok (wr, b)) :
    wr.requestRedraw = w.requestRedraw ∧ wr.hasSwapchain = w.hasSwapchain := by
  unfold checkSurfaceExtent at h
  split at h
  · exact absurd h (by simp)
  · simp only [Except.ok.injEq, Prod.mk.injEq] at h
    obtain ⟨h1, -⟩ := h
    subst h1
    exact ⟨rfl, rfl⟩
  · simp only [Except.ok.injEq, Prod.mk.injEq] at h
    obtain ⟨h1, -⟩ := h
    subst h1
    exact ⟨rfl, rfl⟩

theorem buildSwapchain_inv (env : Env) (w wr : Window) (s : State) (tr : List Event)
    (h : buildSwapchain env w = .ok (wr, s, tr)) :
    tr.all Event.isBuildSide = true ∧ wr.requestRedraw = w.requestRedraw := by
  unfold buildSwapchain at h
  split at h
  · simp only [Except.ok.injEq, Prod.mk.injEq] at h
    obtain ⟨h1, -, h3⟩ := h
    subst h1
    subst h3
    exact ⟨rfl, rfl⟩
  · exact absurd h (by simp)
  · simp only [Except.ok.injEq, Prod.mk.injEq] at h
    obtain ⟨h1, -, h3⟩ := h
    subst h1
    subst h3
    exact ⟨rfl, rfl⟩

theorem buildStageSwapchain_trace (env : Env) (w : Window) (tr : List Event)
    (w2 : Window) (tr2 : List Event)
    (h : buildStageSwapchain env w tr = .ok (w2, tr2)) :
    ∃ s, tr2 = tr ++ s ∧ s.all Event.isBuildSide = true := by
  unfold buildStageSwapchain at h
  split at h
  · split at h
    · exact absurd h (by simp)
    · simp only [Except.ok.injEq, Prod.mk.injEq] at h
      obtain ⟨-, rfl⟩ := h
      exact ⟨[], by simp⟩
    · rename_i wr heq
      split at h
      · exact absurd h (by simp)
      · rename_i w3 s3 tr3 heq2
        obtain ⟨hb, -⟩ := buildSwapchain_inv env wr w3 s3 tr3 heq2
        split at h
        · simp only [Except.ok.injEq, Prod.mk.injEq] at h
          obtain ⟨-, rfl⟩ := h
          exact ⟨tr3, rfl, hb⟩
        · split at h
          · exact absurd h (by simp)
          · simp only [teardownSwapchain, Except.ok.injEq, Prod.mk.injEq] at h
            obtain ⟨-, rfl⟩ := h
            refine ⟨tr3 ++ [Event.releaseSwapchain, Event.releaseDepthImage,
              Event.releaseColorImage], by simp, ?_⟩
            simp only [List.all_append, hb, Bool.true_and]
            decide
          · simp only [buildRenderPasses, buildFramebuffers, buildCommandBuffers,
              buildSemaphores, Except.ok.injEq, Prod.mk.injEq] at h
            obtain ⟨-, rfl⟩ := h
            refine ⟨tr3 ++ ([Event.createRenderPass] ++ ([Event.createFramebuffers] ++
              ([Event.createCommandBuffer] ++ ([Event.createSemaphore, Event.createSemaphore,
                Event.createFence true] ++ (stageBuildsForNewSwapchain ++
                  [Event.windowChangedSize]))))), by simp, ?_⟩
            simp only [List.all_append, hb, Bool.true_and]
            decide
  · simp only [Except.ok.injEq, Prod.mk.injEq] at h
    obtain ⟨-, rfl⟩ := h
    exact ⟨[], by simp⟩

theorem buildStageSurface_trace (env : Env) (w : Window) (tr : List Event)
    (w2 : Window) (tr2 : List Event)
    (h : buildStageSurface env w tr = .ok (w2, tr2)) :
    ∃ s, tr2 = tr ++ s ∧ s.all Event.isBuildSide = true := by
  unfold buildStageSurface at h
  split at h
  · split at h
    · rename_i wr trx heq
      simp only [buildSurface, Prod.mk.injEq] at heq
      obtain ⟨-, -, h3⟩ := heq
      subst h3
      simp only [Except.ok.injEq, Prod.mk.injEq] at h
      obtain ⟨-, rfl⟩ := h
      exact ⟨[Event.createSurface], rfl, by decide⟩
    · rename_i wr trx heq
      simp only [buildSurface, Prod.mk.injEq] at heq
      obtain ⟨-, -, h3⟩ := heq
      subst h3
      obtain ⟨s, hs, hall⟩ := buildStageSwapchain_trace env _ _ _ _ h
      refine ⟨[Event.createSurface] ++ (stageBuildsForNewSurface ++ s), ?_, ?_⟩
      · simp [hs]
      · simp only [List.all_append, hall, Bool.and_true]
        decide
  · obtain ⟨s, hs, hall⟩ := buildStageSwapchain_trace env _ _ _ _ h
    exact ⟨s, hs, hall⟩

theorem build_trace_isBuildSide (env : Env) (w : Window)
    (w2 : Window) (tr2 : List Event)
    (h : build env w = .ok (w2, tr2)) :
    tr2.all Event.isBuildSide = true := by
  unfold build at h
  split at h
  · split at h
    · obtain ⟨s, hs, hall⟩ := buildStageSurface_trace env _ _ _ _ h
      subst hs
      simp only [List.all_append, hall, Bool.and_true]
      decide
    · obtain ⟨s, hs, hall⟩ := buildStageSurface_trace env _ _ _ _ h
      subst hs
      simpa using hall
  · obtain ⟨s, hs, hall⟩ := buildStageSurface_trace env _ _ _ _ h
    subst hs
    simpa using hall

theorem buildStageSwapchain_requestRedraw (env : Env) (w : Window) (tr : List Event)
    (w2 : Window) (tr2 : List Event)
    (h : buildStageSwapchain env w tr = .ok (w2, tr2)) :
    w2.requestRedraw = w.requestRedraw := by
  unfold buildStageSwapchain at h
  split at h
  · split at h
    · exact absurd h (by simp)
    · rename_i wr heq
      obtain ⟨hr, -⟩ := readSurfaceExtent_inv env w wr false heq
      simp only [Except.ok.injEq, Prod.mk.injEq] at h
      obtain ⟨h1, -⟩ := h
      subst h1
      simpa using hr
    · rename_i wr heq
      obtain ⟨hr, -⟩ := readSurfaceExtent_inv env w wr true heq
      split at h
      · exact absurd h (by simp)
      · rename_i w3 s3 tr3 heq2
        obtain ⟨-, hr3⟩ := buildSwapchain_inv env wr w3 s3 tr3 heq2
        split at h
        · simp only [Except.ok.injEq, Prod.mk.injEq] at h
          obtain ⟨h1, -⟩ := h
          subst h1
          simpa using hr3.trans hr
        · split at h
          · exact absurd h (by simp)
          · rename_i w4 heq3
            obtain ⟨hr4, -⟩ := checkSurfaceExtent_inv env w3 w4 false heq3
            simp only [teardownSwapchain, Except.ok.injEq, Prod.mk.injEq] at h
            obtain ⟨h1, -⟩ := h
            subst h1
            simpa using (hr4.trans hr3).trans hr
          · rename_i w4 heq3
            obtain ⟨hr4, -⟩ := checkSurfaceExtent_inv env w3 w4 true heq3
            simp only [buildRenderPasses, buildFramebuffers, buildCommandBuffers,
              buildSemaphores, windowChangedSize, Except.ok.injEq, Prod.mk.injEq] at h
            obtain ⟨h1, -⟩ := h
            subst h1
            simpa using (hr4.trans hr3).trans hr
  · simp only [Except.ok.injEq, Prod.mk.injEq] at h
    obtain ⟨h1, -⟩ := h
    subst h1
    rfl

theorem buildStageSurface_requestRedraw (env : Env) (w : Window) (tr : List Event)
    (w2 : Window) (tr2 : List Event)
    (h : buildStageSurface env w tr = .ok (w2, tr2)) :
    w2.requestRedraw = w.requestRedraw := by
  unfold buildStageSurface at h
  split at h
  · split at h
    · rename_i wr trx heq
      simp only [buildSurface, Prod.mk.injEq] at heq
      obtain ⟨h1, -, -⟩ := heq
      simp only [Except.ok.injEq, Prod.mk.injEq] at h
      obtain ⟨h2, -⟩ := h
      subst h2
      rw [← h1]
    · rename_i wr trx heq
      simp only [buildSurface, Prod.mk.injEq] at heq
      obtain ⟨h1, -, -⟩ := heq
      have := buildStageSwapchain_requestRedraw env _ _ _ _ h
      rw [this, ← h1]
  · exact buildStageSwapchain_requestRedraw env _ _ _ _ h

theorem build_requestRedraw (env : Env) (w : Window)
    (w2 : Window) (tr2 : List Event)
    (h : build env w = .ok (w2, tr2)) :
    w2.requestRedraw = w.requestRedraw := by
  unfold build at h
  split at h
  · split at h
    · rw [buildStageSurface_requestRedraw env _ _ _ _ h]
    · rw [buildStageSurface_requestRedraw env _ _ _ _ h]
  · rw [buildStageSurface_requestRedraw env _ _ _ _ h]

end HelperLemmas

/-- A widget tree with an ordinary preferred-size range and no pending
constraint or layout changes. -/
def goodWidget : WidgetTree :=
  { minimum_width := 50, minimum_height := 50, maximum_width := 2000,
    maximum_height := 2000, update_constraints_result := false,
    update_layout_result := false }

/-- Ordinary surface capabilities: image count range [2, 8], current extent
800 times 600. -/
def goodCaps : SurfaceCapabilities :=
  { minImageCount := 2, maxImageCount := 8, currentExtent := ⟨800, 600⟩ }

/-- External conditions under which every stage construction succeeds. -/
def goodEnv : Env :=
  { widget := goodWidget, surfaceScore := 1, defaultNumberOfSwapchainImages := 3,
    capabilitiesOnRead := .caps goodCaps, capabilitiesOnCheck := .caps goodCaps,
    createSwapchainOutcome := .success, acquireOutcome := .success,
    acquireImageIndex := 0, presentOutcome := .success }

/-- A freshly attached window: state `NoDevice`, device present, no other
resource live, no request flags pending. -/
def baseWindow : Window :=
  { state := State.NoDevice, hasDevice := true, hasSurface := false,
    hasSwapchain := false, hasRenderPass := false, hasFramebuffers := false,
    hasCommandBuffer := false, hasSemaphores := false, nrSwapchainImages := 0,
    swapchainImageExtent := ⟨0, 0⟩, currentWindowExtent := ⟨800, 600⟩,
    requestResize := false, requestLayout := false, requestRedraw := false,
    requestSettingChange := false }

/-- The base window placed in a given lifecycle state with all resources
marked live (as after a full build). -/
def windowAt (s : State) : Window :=
  { baseWindow with
    state := s, hasSurface := true, hasSwapchain := true,
    hasRenderPass := true, hasFramebuffers := true, hasCommandBuffer := true,
    hasSemaphores := true }

/-- The window component of a successful `render`, for evaluating theorems at
concrete inputs. -/
def renderOkWindow (env : Env) (w : Window) : Window :=
  match render env w with
  | .ok (w2, _) => w2
  | .error _ => w

/-- The trace component of a successful `render`, for evaluating theorems at
concrete inputs. -/
def renderOkTrace (env : Env) (w : Window) : List Event :=
  match render env w with
  | .ok (_, tr) => tr
  | .error _ => []

/-- C2: teardown() sets the state exactly to the boundary implied by the loss
marker that triggered it — `SwapchainLost` yields `NoSwapchain`,
`SurfaceLost` yields `NoSurface`, `DeviceLost` yields `NoDevice`, and
`WindowLost` yields the terminal `NoWindow` with the delegate
`closingWindow` callback invoked exactly once — and releases no resource
below that boundary: at `SwapchainLost` the device reference and the surface
object are untouched, and a state below `SwapchainLost` is left entirely
unchanged. -/
theorem teardown_stops_at_loss_boundary (w : Window) :
    (w.state = State.SwapchainLost →
      (teardown w).1.state = State.NoSwapchain ∧
      (teardown w).1.hasDevice = w.hasDevice ∧
      (teardown w).1.hasSurface = w.hasSurface ∧
      Event.releaseSurface ∉ (teardown w).2 ∧
      Event.releaseDevice ∉ (teardown w).2 ∧
      Event.closingWindow ∉ (teardown w).2) ∧
    (w.state = State.SurfaceLost →
      (teardown w).1.state = State.NoSurface ∧
      (teardown w).1.hasDevice = w.hasDevice ∧
      Event.releaseDevice ∉ (teardown w).2 ∧
      Event.closingWindow ∉ (teardown w).2) ∧
    (w.state = State.DeviceLost →
      (teardown w).1.state = State.NoDevice ∧
      Event.closingWindow ∉ (teardown w).2) ∧
    (w.state = State.WindowLost →
      (teardown w).1.state = State.NoWindow ∧
      ((teardown w).2).count Event.closingWindow = 1) ∧
    (w.state.ord < State.SwapchainLost.ord → teardown w = (w, [])) := by
  refine ⟨?_, ?_, ?_, ?_, ?_⟩ <;> intro h
  · refine ⟨?_, ?_, ?_, ?_, ?_, ?_⟩ <;> simp [teardown, h, State.ord] <;> decide
  · refine ⟨?_, ?_, ?_, ?_⟩ <;> simp [teardown, h, State.ord] <;> decide
  · refine ⟨?_, ?_⟩ <;> simp [teardown, h, State.ord] <;> decide
  · refine ⟨?_, ?_⟩ <;> simp [teardown, h, State.ord] <;> decide
  · unfold teardown
    rw [if_neg (by omega)]

/-- Witness for C2 at a window whose state is `WindowLost`: teardown reaches
the terminal `NoWindow` and invokes the delegate callback exactly once. -/
theorem teardown_stops_at_loss_boundary_witness :
    (teardown (windowAt State.WindowLost)).1.state = State.NoWindow ∧
    ((teardown (windowAt State.WindowLost)).2).count Event.closingWindow = 1 :=
  (teardown_stops_at_loss_boundary (windowAt State.WindowLost)).2.2.2.1 rfl

/-- C3: whenever teardown() runs in a state at or above `SwapchainLost`, its
actions begin with exactly the wait-idle, the five per-stage
`teardownForSwapchainLost` notifications, and then the releases in the order
synchronization primitives, command buffer, framebuffers, render pass,
swapchain with its depth and color attachment images; everything after this
fixed sequence belongs to strictly deeper cascade boundaries. -/
theorem teardown_release_order (w : Window)
    (h : State.SwapchainLost.ord ≤ w.state.ord) :
    ∃ rest, (teardown w).2 = swapchainTeardownSeq ++ rest ∧
      rest.all Event.isDeeperThanSwapchain = true := by
  rcases hs : w.state with _ | _ | _ | _ | _ | _ | _ | _ | _ <;> rw [hs] at h
  case NoWindow => simp [State.ord] at h
  case NoDevice => simp [State.ord] at h
  case NoSurface => simp [State.ord] at h
  case NoSwapchain => simp [State.ord] at h
  case ReadyToRender => simp [State.ord] at h
  case SwapchainLost =>
    refine ⟨[], ?_, by decide⟩
    simp [teardown, hs, State.ord, swapchainTeardownSeq]
  case SurfaceLost =>
    refine ⟨stageTeardownsForSurfaceLost ++ [Event.releaseSurface], ?_, by decide⟩
    simp [teardown, hs, State.ord, swapchainTeardownSeq]
  case DeviceLost =>
    refine ⟨stageTeardownsForSurfaceLost ++ [Event.releaseSurface] ++
      stageTeardownsForDeviceLost ++ [Event.releaseDevice], ?_, by decide⟩
    simp [teardown, hs, State.ord, swapchainTeardownSeq]
  case WindowLost =>
    refine ⟨stageTeardownsForSurfaceLost ++ [Event.releaseSurface] ++
      stageTeardownsForDeviceLost ++ [Event.releaseDevice] ++
      stageTeardownsForWindowLost ++ [Event.closingWindow], ?_, by decide⟩
    simp [teardown, hs, State.ord, swapchainTeardownSeq]

/-- Witness for C3 at a window whose state is `SwapchainLost`. -/
theorem teardown_release_order_witness :
    ∃ rest, (teardown (windowAt State.SwapchainLost)).2 = swapchainTeardownSeq ++ rest ∧
      rest.all Event.isDeeperThanSwapchain = true :=
  teardown_release_order (windowAt State.SwapchainLost) (by decide)

/-- C4: the swapchain-image acquire is a zero-timeout poll whose outcome maps
as: success returns the image index; suboptimal or out-of-date set the state
to `SwapchainLost` and return no image; surface-lost sets `SurfaceLost` and
returns no image; timeout returns no image with the state unchanged; present
outcomes mirror this; any other result of acquire or present is raised as a
fatal error. -/
theorem acquire_present_outcome_map (env : Env) (w : Window) (i : Nat)
    (sem : Semaphore) :
    (env.acquireOutcome = AcquireOutcome.success →
      acquireNextImageFromSwapchain env w =
        .ok (w, some env.acquireImageIndex, [Event.acquire 0])) ∧
    (env.acquireOutcome = AcquireOutcome.suboptimalKHR →
      acquireNextImageFromSwapchain env w =
        .ok ({w with state := State.SwapchainLost}, none, [Event.acquire 0])) ∧
    (env.acquireOutcome = AcquireOutcome.errorOutOfDateKHR →
      acquireNextImageFromSwapchain env w =
        .ok ({w with state := State.SwapchainLost}, none, [Event.acquire 0])) ∧
    (env.acquireOutcome = AcquireOutcome.errorSurfaceLostKHR →
      acquireNextImageFromSwapchain env w =
        .ok ({w with state := State.SurfaceLost}, none, [Event.acquire 0])) ∧
    (env.acquireOutcome = AcquireOutcome.timeout →
      acquireNextImageFromSwapchain env w = .ok (w, none, [Event.acquire 0])) ∧
    (env.acquireOutcome = AcquireOutcome.unknown →
      acquireNextImageFromSwapchain env w = .error GuiError.unknownAcquireResult) ∧
    (env.presentOutcome = PresentOutcome.success →
      presentImageToQueue env w i sem = .ok (w, [Event.present [sem]])) ∧
    (env.presentOutcome = PresentOutcome.suboptimalKHR →
      presentImageToQueue env w i sem =
        .ok ({w with state := State.SwapchainLost}, [Event.present [sem]])) ∧
    (env.presentOutcome = PresentOutcome.outOfDateKHRError →
      presentImageToQueue env w i sem =
        .ok ({w with state := State.SwapchainLost}, [Event.present [sem]])) ∧
    (env.presentOutcome = PresentOutcome.surfaceLostKHRError →
      presentImageToQueue env w i sem =
        .ok ({w with state := State.SurfaceLost}, [Event.present [sem]])) ∧
    (env.presentOutcome = PresentOutcome.unknown →
      presentImageToQueue env w i sem = .error GuiError.unknownPresentResult) := by
  refine ⟨?_, ?_, ?_, ?_, ?_, ?_, ?_, ?_, ?_, ?_, ?_⟩ <;> intro h <;>
    simp [acquireNextImageFromSwapchain, presentImageToQueue, h]

/-- Witness for C4 under the all-success environment. -/
theorem acquire_present_outcome_map_witness :
    acquireNextImageFromSwapchain goodEnv (windowAt State.ReadyToRender) =
      .ok (windowAt State.ReadyToRender, some 0, [Event.acquire 0]) ∧
    presentImageToQueue goodEnv (windowAt State.ReadyToRender) 0
        Semaphore.renderFinished =
      .ok (windowAt State.ReadyToRender, [Event.present [Semaphore.renderFinished]]) := by
  have h := acquire_present_outcome_map goodEnv (windowAt State.ReadyToRender) 0
    Semaphore.renderFinished
  exact ⟨h.1 rfl, h.2.2.2.2.2.2.1 rfl⟩

/-- C5: if the surface reports an extent below the widget minimum preferred
size or above its maximum, build() returns with the state left at
`NoSwapchain` and performs zero GPU allocations: no swapchain, attachment
image, framebuffer, render pass, command buffer, semaphore or fence is
created on that call. -/
theorem build_declines_out_of_range_extent (env : Env) (w : Window)
    (caps : SurfaceCapabilities)
    (hstate : w.state = State.NoSwapchain)
    (hquery : env.capabilitiesOnRead = .caps caps)
    (hw : caps.currentExtent.width ≠ UINT32_MAX)
    (hh : caps.currentExtent.height ≠ UINT32_MAX)
    (hrange : caps.currentExtent.width < env.widget.minimum_width ∨
      caps.currentExtent.height < env.widget.minimum_height ∨
      env.widget.maximum_width < caps.currentExtent.width ∨
      env.widget.maximum_height < caps.currentExtent.height) :
    ∃ w2 tr, build env w = .ok (w2, tr) ∧ w2.state = State.NoSwapchain ∧
      tr.any Event.isGpuAllocation = false := by
  have hg : getImageCountAndExtent env env.capabilitiesOnRead =
      ImageCountAndExtent.ok
        (clampNat env.defaultNumberOfSwapchainImages caps.minImageCount
          (if caps.maxImageCount ≠ 0 then caps.maxImageCount else 10))
        caps.currentExtent := by
    simp [getImageCountAndExtent, hquery, hw, hh]
  have hread : ∃ wr, readSurfaceExtent env w = .ok (wr, false) := by
    rcases Decidable.em (caps.currentExtent.width < env.widget.minimum_width ∨
        caps.currentExtent.height < env.widget.minimum_height) with h1 | h1
    · exact ⟨{w with
        nrSwapchainImages := clampNat env.defaultNumberOfSwapchainImages
          caps.minImageCount (if caps.maxImageCount ≠ 0 then caps.maxImageCount else 10),
        swapchainImageExtent := caps.currentExtent},
        by simp [readSurfaceExtent, hg, h1]⟩
    · have h2 : env.widget.maximum_width < caps.currentExtent.width ∨
          env.widget.maximum_height < caps.currentExtent.height := by tauto
      exact ⟨{w with
        nrSwapchainImages := clampNat env.defaultNumberOfSwapchainImages
          caps.minImageCount (if caps.maxImageCount ≠ 0 then caps.maxImageCount else 10),
        swapchainImageExtent := caps.currentExtent},
        by simp [readSurfaceExtent, hg, h1, h2]⟩
  obtain ⟨wr, hr⟩ := hread
  refine ⟨{wr with state := State.NoSwapchain}, [], ?_, rfl, rfl⟩
  simp [build, buildStageSurface, buildStageSwapchain, hstate, hr]

/-- Witness for C5: a minimized window reporting the zero-area extent 0 times
0 against a minimum preferred size of 50 times 50. -/
theorem build_declines_out_of_range_extent_witness :
    ∃ w2 tr,
      build {goodEnv with capabilitiesOnRead :=
          CapabilityQuery.caps ⟨2, 8, ⟨0, 0⟩⟩} (windowAt State.NoSwapchain) =
        .ok (w2, tr) ∧
      w2.state = State.NoSwapchain ∧ tr.any Event.isGpuAllocation = false :=
  build_declines_out_of_range_extent _ _ ⟨2, 8, ⟨0, 0⟩⟩ rfl rfl
    (by decide) (by decide) (by left; decide)

/-- C6: if, immediately after successful swapchain creation inside build(),
re-reading the surface capabilities yields an image count or extent different
from the one the swapchain was created with, build() destroys the just-created
swapchain and its attachment images and returns with the state still
`NoSwapchain` — never `ReadyToRender` with an inconsistent extent. -/
theorem build_rechecks_surface_extent (env : Env) (w : Window)
    (n n2 : Nat) (e e2 : Extent2D)
    (hstate : w.state = State.NoSwapchain)
    (hread : getImageCountAndExtent env env.capabilitiesOnRead =
      ImageCountAndExtent.ok n e)
    (hmin : ¬(e.width < env.widget.minimum_width ∨
      e.height < env.widget.minimum_height))
    (hmax : ¬(env.widget.maximum_width < e.width ∨
      env.widget.maximum_height < e.height))
    (hcreate : env.createSwapchainOutcome = SwapchainCreateOutcome.success)
    (hcheck : getImageCountAndExtent env env.capabilitiesOnCheck =
      ImageCountAndExtent.ok n2 e2)
    (hmismatch : ¬(n2 = n ∧ e2 = e)) :
    build env w =
      .ok ({w with
          nrSwapchainImages := n, swapchainImageExtent := e, hasSwapchain := false},
        [Event.createSwapchain, Event.createDepthImage, Event.createColorImage,
          Event.releaseSwapchain, Event.releaseDepthImage, Event.releaseColorImage]) ∧
    ({w with
        nrSwapchainImages := n, swapchainImageExtent := e,
        hasSwapchain := false} : Window).state = State.NoSwapchain := by
  have hr : readSurfaceExtent env w =
      .ok ({w with nrSwapchainImages := n, swapchainImageExtent := e}, true) := by
    simp [readSurfaceExtent, hread, hmin, hmax]
  have hc : checkSurfaceExtent env
      {w with
        state := State.NoSwapchain, nrSwapchainImages := n, swapchainImageExtent := e,
        hasSwapchain := true} =
      .ok ({w with
        state := State.NoSwapchain, nrSwapchainImages := n, swapchainImageExtent := e,
        hasSwapchain := true},
        false) := by
    simp [checkSurfaceExtent, hcheck, hmismatch]
  refine ⟨?_, hstate⟩
  simp [build, buildStageSurface, buildStageSwapchain, hstate, hr, buildSwapchain,
    hcreate, hc, teardownSwapchain]

/-- Witness for C6: the first capability read reports 800 times 600, the
re-check reports 801 times 600. -/
theorem build_rechecks_surface_extent_witness :
    build {goodEnv with capabilitiesOnCheck :=
        CapabilityQuery.caps ⟨2, 8, ⟨801, 600⟩⟩} (windowAt State.NoSwapchain) =
      .ok ({windowAt State.NoSwapchain with
          nrSwapchainImages := 3, swapchainImageExtent := ⟨800, 600⟩,
          hasSwapchain := false},
        [Event.createSwapchain, Event.createDepthImage, Event.createColorImage,
          Event.releaseSwapchain, Event.releaseDepthImage, Event.releaseColorImage]) ∧
    ({windowAt State.NoSwapchain with
        nrSwapchainImages := 3, swapchainImageExtent := ⟨800, 600⟩,
        hasSwapchain := false} : Window).state = State.NoSwapchain :=
  build_rechecks_surface_extent _ _ 3 3 ⟨800, 600⟩ ⟨801, 600⟩ rfl (by decide)
    (by decide) (by decide) rfl (by decide) (by decide)

/-- External conditions under which `createSwapchainKHR` returns an
unexpected result. -/
def badSwapchainEnv : Env :=
  {goodEnv with createSwapchainOutcome := SwapchainCreateOutcome.unknown}

/-- Counterexample to C7 as stated: with the window at `NoSwapchain` and
every precondition of swapchain construction satisfied, an unexpected API
error from `createSwapchainKHR` makes build() raise a fatal `gui_error`
instead of advancing the state to a Lost marker — there is no state update at
all, the error propagates to the caller. -/
theorem build_unknown_swapchain_error_is_fatal :
    build badSwapchainEnv (windowAt State.NoSwapchain) =
      .error GuiError.unknownSwapchainResult := by
  rfl

/-- C7, amended: a created surface scoring zero or less advances the state to
`DeviceLost`; a swapchain creation reporting surface-lost advances the state
to `SurfaceLost`; a transient condition (extent outside the widget preferred
range) leaves the state at `NoSwapchain` and returns without error; but an
unexpected API error from a creation call is raised as a fatal error rather
than advancing the state to a Lost marker. -/
theorem build_failure_modes (env : Env) (w : Window) (n : Nat) (e : Extent2D) :
    (w.state = State.NoSurface → env.surfaceScore ≤ 0 →
      ∃ w2, build env w = .ok (w2, [Event.createSurface]) ∧
        w2.state = State.DeviceLost) ∧
    (w.state = State.NoSwapchain →
      getImageCountAndExtent env env.capabilitiesOnRead = ImageCountAndExtent.ok n e →
      ¬(e.width < env.widget.minimum_width ∨ e.height < env.widget.minimum_height) →
      ¬(env.widget.maximum_width < e.width ∨ env.widget.maximum_height < e.height) →
      env.createSwapchainOutcome = SwapchainCreateOutcome.errorSurfaceLostKHR →
      ∃ w2, build env w = .ok (w2, []) ∧ w2.state = State.SurfaceLost) ∧
    (w.state = State.NoSwapchain →
      getImageCountAndExtent env env.capabilitiesOnRead = ImageCountAndExtent.ok n e →
      (e.width < env.widget.minimum_width ∨ e.height < env.widget.minimum_height ∨
        env.widget.maximum_width < e.width ∨ env.widget.maximum_height < e.height) →
      ∃ w2, build env w = .ok (w2, []) ∧ w2.state = State.NoSwapchain) ∧
    (w.state = State.NoSwapchain →
      getImageCountAndExtent env env.capabilitiesOnRead = ImageCountAndExtent.ok n e →
      ¬(e.width < env.widget.minimum_width ∨ e.height < env.widget.minimum_height) →
      ¬(env.widget.maximum_width < e.width ∨ env.widget.maximum_height < e.height) →
      env.createSwapchainOutcome = SwapchainCreateOutcome.unknown →
      build env w = .error GuiError.unknownSwapchainResult) := by
  refine ⟨?_, ?_, ?_, ?_⟩
  · intro hstate hscore
    have hd : decide (0 < env.surfaceScore) = false := decide_eq_false (by omega)
    refine ⟨{w with hasSurface := true, state := State.DeviceLost}, ?_, rfl⟩
    simp [build, buildStageSurface, buildSurface, hstate, hd]
  · intro hstate hread hmin hmax hcreate
    have hr : readSurfaceExtent env w =
        .ok ({w with nrSwapchainImages := n, swapchainImageExtent := e}, true) := by
      simp [readSurfaceExtent, hread, hmin, hmax]
    refine ⟨{w with
      state := State.SurfaceLost, nrSwapchainImages := n,
      swapchainImageExtent := e}, ?_, rfl⟩
    simp [build, buildStageSurface, buildStageSwapchain, hstate, hr, buildSwapchain,
      hcreate]
  · intro hstate hread hrange
    rcases Decidable.em (e.width < env.widget.minimum_width ∨
        e.height < env.widget.minimum_height) with h1 | h1
    · have hr : readSurfaceExtent env w =
          .ok ({w with nrSwapchainImages := n, swapchainImageExtent := e}, false) := by
        simp [readSurfaceExtent, hread, h1]
      refine ⟨{w with
        state := State.NoSwapchain, nrSwapchainImages := n,
        swapchainImageExtent := e}, ?_, rfl⟩
      simp [build, buildStageSurface, buildStageSwapchain, hstate, hr]
    · have h2 : env.widget.maximum_width < e.width ∨
          env.widget.maximum_height < e.height := by tauto
      have hr : readSurfaceExtent env w =
          .ok ({w with nrSwapchainImages := n, swapchainImageExtent := e}, false) := by
        simp [readSurfaceExtent, hread, h1, h2]
      refine ⟨{w with
        state := State.NoSwapchain, nrSwapchainImages := n,
        swapchainImageExtent := e}, ?_, rfl⟩
      simp [build, buildStageSurface, buildStageSwapchain, hstate, hr]
  · intro hstate hread hmin hmax hcreate
    have hr : readSurfaceExtent env w =
        .ok ({w with nrSwapchainImages := n, swapchainImageExtent := e}, true) := by
      simp [readSurfaceExtent, hread, hmin, hmax]
    simp [build, buildStageSurface, buildStageSwapchain, hstate, hr, buildSwapchain,
      hcreate]

/-- Witness for C7 (amended) at a surface that scores zero: build() advances
the state to `DeviceLost`. -/
theorem build_failure_modes_witness :
    ∃ w2, build {goodEnv with surfaceScore := 0} (windowAt State.NoSurface) =
      .ok (w2, [Event.createSurface]) ∧ w2.state = State.DeviceLost :=
  (build_failure_modes {goodEnv with surfaceScore := 0} (windowAt State.NoSurface)
    3 ⟨800, 600⟩).1 rfl (by decide)

theorem buildStageSwapchain_rebuild (env : Env) (w : Window) (tr : List Event)
    (w1 : Window) (tr1 : List Event)
    (hw : w.state = State.NoSwapchain)
    (h : buildStageSwapchain env w tr = .ok (w1, tr1))
    (hlt : w1.state.ord < State.SwapchainLost.ord) :
    (w1.state = State.NoSwapchain ∨ w1.state = State.ReadyToRender) ∧
    ∃ w2 tr2, buildStageSwapchain env w1 [] = .ok (w2, tr2) ∧ w2.state = w1.state := by
  cases hg : getImageCountAndExtent env env.capabilitiesOnRead with
  | fatal =>
    have hr : readSurfaceExtent env w = .error GuiError.missingCurrentExtent := by
      simp [readSurfaceExtent, hg]
    simp [buildStageSwapchain, hw, hr] at h
  | surfaceLost =>
    have hr : ∀ u : Window, readSurfaceExtent env u =
        .ok ({u with state := State.SurfaceLost}, false) := fun u => by
      simp [readSurfaceExtent, hg]
    simp [buildStageSwapchain, hw, hr] at h
    obtain ⟨h1, -⟩ := h
    subst h1
    refine ⟨Or.inl rfl, {w with state := State.NoSwapchain}, [], ?_, rfl⟩
    simp [buildStageSwapchain, hr]
  | ok n e =>
    rcases Decidable.em (e.width < env.widget.minimum_width ∨
        e.height < env.widget.minimum_height) with h1 | h1
    · have hr : ∀ u : Window, readSurfaceExtent env u =
          .ok ({u with nrSwapchainImages := n, swapchainImageExtent := e}, false) :=
        fun u => by simp [readSurfaceExtent, hg, h1]
      simp [buildStageSwapchain, hw, hr] at h
      obtain ⟨hx, -⟩ := h
      subst hx
      refine ⟨Or.inl rfl, {w with
        state := State.NoSwapchain, nrSwapchainImages := n,
        swapchainImageExtent := e}, [], ?_, rfl⟩
      simp [buildStageSwapchain, hr]
    · rcases Decidable.em (env.widget.maximum_width < e.width ∨
          env.widget.maximum_height < e.height) with h2 | h2
      · have hr : ∀ u : Window, readSurfaceExtent env u =
            .ok ({u with nrSwapchainImages := n, swapchainImageExtent := e}, false) :=
          fun u => by simp [readSurfaceExtent, hg, h1, h2]
        simp [buildStageSwapchain, hw, hr] at h
        obtain ⟨hx, -⟩ := h
        subst hx
        refine ⟨Or.inl rfl, {w with
          state := State.NoSwapchain, nrSwapchainImages := n,
          swapchainImageExtent := e}, [], ?_, rfl⟩
        simp [buildStageSwapchain, hr]
      · have hr : ∀ u : Window, readSurfaceExtent env u =
            .ok ({u with nrSwapchainImages := n, swapchainImageExtent := e}, true) :=
          fun u => by simp [readSurfaceExtent, hg, h1, h2]
        cases hco : env.createSwapchainOutcome with
        | unknown =>
          simp [buildStageSwapchain, hw, hr, buildSwapchain, hco] at h
        | errorSurfaceLostKHR =>
          simp [buildStageSwapchain, hw, hr, buildSwapchain, hco] at h
          obtain ⟨hx, -⟩ := h
          subst hx
          simp [State.ord] at hlt
        | success =>
          cases hgc : getImageCountAndExtent env env.capabilitiesOnCheck with
          | fatal =>
            have hcx : ∀ u : Window, checkSurfaceExtent env u =
                .error GuiError.missingCurrentExtent := fun u => by
              simp [checkSurfaceExtent, hgc]
            simp [buildStageSwapchain, hw, hr, buildSwapchain, hco, hcx] at h
          | surfaceLost =>
            have hcx : ∀ u : Window, checkSurfaceExtent env u =
                .ok ({u with state := State.SurfaceLost}, false) := fun u => by
              simp [checkSurfaceExtent, hgc]
            simp [buildStageSwapchain, hw, hr, buildSwapchain, hco, hcx,
              teardownSwapchain] at h
            obtain ⟨hx, -⟩ := h
            subst hx
            simp [State.ord] at hlt
          | ok n2 e2 =>
            rcases Decidable.em (n2 = n ∧ e2 = e) with hm | hm
            · have hcx : checkSurfaceExtent env {w with
                  state := State.NoSwapchain, nrSwapchainImages := n,
                  swapchainImageExtent := e, hasSwapchain := true} =
                  .ok ({w with
                    state := State.NoSwapchain, nrSwapchainImages := n,
                    swapchainImageExtent := e, hasSwapchain := true}, true) := by
                simp [checkSurfaceExtent, hgc, hm.1, hm.2]
              simp [buildStageSwapchain, hw, hr, buildSwapchain, hco, hcx,
                buildRenderPasses, buildFramebuffers, buildCommandBuffers,
                buildSemaphores, windowChangedSize] at h
              obtain ⟨hx, -⟩ := h
              subst hx
              refine ⟨Or.inr rfl, {w with
                state := State.ReadyToRender, hasSwapchain := true,
                hasRenderPass := true, hasFramebuffers := true,
                hasCommandBuffer := true, hasSemaphores := true,
                nrSwapchainImages := n, swapchainImageExtent := e,
                currentWindowExtent := e}, [], ?_, rfl⟩
              simp [buildStageSwapchain]
            · have hcx : checkSurfaceExtent env {w with
                  state := State.NoSwapchain, nrSwapchainImages := n,
                  swapchainImageExtent := e, hasSwapchain := true} =
                  .ok ({w with
                    state := State.NoSwapchain, nrSwapchainImages := n,
                    swapchainImageExtent := e, hasSwapchain := true}, false) := by
                simp [checkSurfaceExtent, hgc, hm]
              simp [buildStageSwapchain, hw, hr, buildSwapchain, hco, hcx,
                teardownSwapchain] at h
              obtain ⟨hx, -⟩ := h
              subst hx
              refine ⟨Or.inl rfl, {w with
                state := State.NoSwapchain, nrSwapchainImages := n,
                swapchainImageExtent := e, hasSwapchain := false},
                [Event.createSwapchain, Event.createDepthImage, Event.createColorImage,
                 Event.releaseSwapchain, Event.releaseDepthImage, Event.releaseColorImage],
                ?_, rfl⟩
              simp [buildStageSwapchain, hr, buildSwapchain, hco, hcx, teardownSwapchain]

theorem buildStageSurface_rebuild (env : Env) (w : Window) (tr : List Event)
    (w1 : Window) (tr1 : List Event)
    (hw : w.state = State.NoSurface)
    (h : buildStageSurface env w tr = .ok (w1, tr1))
    (hlt : w1.state.ord < State.SwapchainLost.ord) :
    ∃ w2 tr2, build env w1 = .ok (w2, tr2) ∧ w2.state = w1.state := by
  rcases Decidable.em (0 < env.surfaceScore) with hsc | hsc
  · have hbs : decide (0 < env.surfaceScore) = true := decide_eq_true hsc
    rw [show buildStageSurface env w tr = buildStageSwapchain env
        {w with hasSurface := true, state := State.NoSwapchain}
        (tr ++ [Event.createSurface] ++ stageBuildsForNewSurface) from by
      simp [buildStageSurface, hw, buildSurface, hbs]] at h
    obtain ⟨hor, w2, tr2, hrun, hst⟩ :=
      buildStageSwapchain_rebuild env _ _ _ _ rfl h hlt
    have hb : build env w1 = buildStageSwapchain env w1 [] := by
      rcases hor with h1 | h1 <;> simp [build, buildStageSurface, h1]
    exact ⟨w2, tr2, by rw [hb]; exact hrun, hst⟩
  · have hbs : decide (0 < env.surfaceScore) = false := decide_eq_false hsc
    simp [buildStageSurface, hw, buildSurface, hbs] at h
    obtain ⟨hx, -⟩ := h
    subst hx
    simp [State.ord] at hlt

theorem buildStageSwapchain_rebuild_surfaceLost (env : Env) (w : Window)
    (tr : List Event) (w1 : Window) (tr1 : List Event)
    (hw : w.state = State.NoSwapchain)
    (h : buildStageSwapchain env w tr = .ok (w1, tr1))
    (hsl : w1.state = State.SurfaceLost)
    (hscore : 0 < env.surfaceScore) :
    ∃ w2 tr2, build env ((teardown w1).1) = .ok (w2, tr2) ∧
      w2.state = State.SurfaceLost := by
  have hbs : decide (0 < env.surfaceScore) = true := decide_eq_true hscore
  cases hg : getImageCountAndExtent env env.capabilitiesOnRead with
  | fatal =>
    have hr : readSurfaceExtent env w = .error GuiError.missingCurrentExtent := by
      simp [readSurfaceExtent, hg]
    simp [buildStageSwapchain, hw, hr] at h
  | surfaceLost =>
    have hr : ∀ u : Window, readSurfaceExtent env u =
        .ok ({u with state := State.SurfaceLost}, false) := fun u => by
      simp [readSurfaceExtent, hg]
    simp [buildStageSwapchain, hw, hr] at h
    obtain ⟨hx, -⟩ := h
    subst hx
    simp at hsl
  | ok n e =>
    rcases Decidable.em (e.width < env.widget.minimum_width ∨
        e.height < env.widget.minimum_height) with h1 | h1
    · have hr : ∀ u : Window, readSurfaceExtent env u =
          .ok ({u with nrSwapchainImages := n, swapchainImageExtent := e}, false) :=
        fun u => by simp [readSurfaceExtent, hg, h1]
      simp [buildStageSwapchain, hw, hr] at h
      obtain ⟨hx, -⟩ := h
      subst hx
      simp at hsl
    · rcases Decidable.em (env.widget.maximum_width < e.width ∨
          env.widget.maximum_height < e.height) with h2 | h2
      · have hr : ∀ u : Window, readSurfaceExtent env u =
            .ok ({u with nrSwapchainImages := n, swapchainImageExtent := e}, false) :=
          fun u => by simp [readSurfaceExtent, hg, h1, h2]
        simp [buildStageSwapchain, hw, hr] at h
        obtain ⟨hx, -⟩ := h
        subst hx
        simp at hsl
      · have hr : ∀ u : Window, readSurfaceExtent env u =
            .ok ({u with nrSwapchainImages := n, swapchainImageExtent := e}, true) :=
          fun u => by simp [readSurfaceExtent, hg, h1, h2]
        cases hco : env.createSwapchainOutcome with
        | unknown =>
          simp [buildStageSwapchain, hw, hr, buildSwapchain, hco] at h
        | errorSurfaceLostKHR =>
          simp [buildStageSwapchain, hw, hr, buildSwapchain, hco] at h
          obtain ⟨hx, -⟩ := h
          subst hx
          rw [show (teardown {w with
              state := State.SurfaceLost, nrSwapchainImages := n,
              swapchainImageExtent := e}).1 = {w with
              state := State.NoSurface, hasSurface := false, hasSwapchain := false,
              hasRenderPass := false, hasFramebuffers := false,
              hasCommandBuffer := false, hasSemaphores := false,
              nrSwapchainImages := n, swapchainImageExtent := e} from by
            simp [teardown, State.ord]]
          refine ⟨{w with
            state := State.SurfaceLost, hasSurface := true, hasSwapchain := false,
            hasRenderPass := false, hasFramebuffers := false,
            hasCommandBuffer := false, hasSemaphores := false,
            nrSwapchainImages := n, swapchainImageExtent := e},
            Event.createSurface :: stageBuildsForNewSurface, ?_, rfl⟩
          simp [build, buildStageSurface, buildStageSwapchain, buildSurface, hbs,
            hr, buildSwapchain, hco]
        | success =>
          cases hgc : getImageCountAndExtent env env.capabilitiesOnCheck with
          | fatal =>
            have hcx : ∀ u : Window, checkSurfaceExtent env u =
                .error GuiError.missingCurrentExtent := fun u => by
              simp [checkSurfaceExtent, hgc]
            simp [buildStageSwapchain, hw, hr, buildSwapchain, hco, hcx] at h
          | surfaceLost =>
            have hcx : ∀ u : Window, checkSurfaceExtent env u =
                .ok ({u with state := State.SurfaceLost}, false) := fun u => by
              simp [checkSurfaceExtent, hgc]
            simp [buildStageSwapchain, hw, hr, buildSwapchain, hco, hcx,
              teardownSwapchain] at h
            obtain ⟨hx, -⟩ := h
            subst hx
            rw [show (teardown {w with
                state := State.SurfaceLost, hasSwapchain := false,
                nrSwapchainImages := n, swapchainImageExtent := e}).1 = {w with
                state := State.NoSurface, hasSurface := false, hasSwapchain := false,
                hasRenderPass := false, hasFramebuffers := false,
                hasCommandBuffer := false, hasSemaphores := false,
                nrSwapchainImages := n, swapchainImageExtent := e} from by
              simp [teardown, State.ord]]
            refine ⟨{w with
              state := State.SurfaceLost, hasSurface := true, hasSwapchain := false,
              hasRenderPass := false, hasFramebuffers := false,
              hasCommandBuffer := false, hasSemaphores := false,
              nrSwapchainImages := n, swapchainImageExtent := e},
              Event.createSurface :: stageBuildsForNewSurface ++
                [Event.createSwapchain, Event.createDepthImage, Event.createColorImage,
                 Event.releaseSwapchain, Event.releaseDepthImage,
                 Event.releaseColorImage], ?_, rfl⟩
            simp [build, buildStageSurface, buildStageSwapchain, buildSurface, hbs,
              hr, buildSwapchain, hco, hcx, teardownSwapchain]
          | ok n2 e2 =>
            rcases Decidable.em (n2 = n ∧ e2 = e) with hm | hm
            · have hcx : checkSurfaceExtent env {w with
                  state := State.NoSwapchain, nrSwapchainImages := n,
                  swapchainImageExtent := e, hasSwapchain := true} =
                  .ok ({w with
                    state := State.NoSwapchain, nrSwapchainImages := n,
                    swapchainImageExtent := e, hasSwapchain := true}, true) := by
                simp [checkSurfaceExtent, hgc, hm.1, hm.2]
              simp [buildStageSwapchain, hw, hr, buildSwapchain, hco, hcx,
                buildRenderPasses, buildFramebuffers, buildCommandBuffers,
                buildSemaphores, windowChangedSize] at h
              obtain ⟨hx, -⟩ := h
              subst hx
              simp at hsl
            · have hcx : checkSurfaceExtent env {w with
                  state := State.NoSwapchain, nrSwapchainImages := n,
                  swapchainImageExtent := e, hasSwapchain := true} =
                  .ok ({w with
                    state := State.NoSwapchain, nrSwapchainImages := n,
                    swapchainImageExtent := e, hasSwapchain := true}, false) := by
                simp [checkSurfaceExtent, hgc, hm]
              simp [buildStageSwapchain, hw, hr, buildSwapchain, hco, hcx,
                teardownSwapchain] at h
              obtain ⟨hx, -⟩ := h
              subst hx
              simp at hsl

theorem buildStageSurface_rebuild_surfaceLost (env : Env) (w : Window)
    (tr : List Event) (w1 : Window) (tr1 : List Event)
    (hw : w.state = State.NoSurface)
    (h : buildStageSurface env w tr = .ok (w1, tr1))
    (hsl : w1.state = State.SurfaceLost)
    (hscore : 0 < env.surfaceScore) :
    ∃ w2 tr2, build env ((teardown w1).1) = .ok (w2, tr2) ∧
      w2.state = State.SurfaceLost := by
  have hbs : decide (0 < env.surfaceScore) = true := decide_eq_true hscore
  rw [show buildStageSurface env w tr = buildStageSwapchain env
      {w with hasSurface := true, state := State.NoSwapchain}
      (tr ++ [Event.createSurface] ++ stageBuildsForNewSurface) from by
    simp [buildStageSurface, hw, buildSurface, hbs]] at h
  exact buildStageSwapchain_rebuild_surfaceLost env _ _ _ _ rfl h hsl hscore

/-- C9, amended: build() at `ReadyToRender` is a no-op and teardown() below
`SwapchainLost` is a no-op; and, under identical external conditions, the
sequence build(); teardown(); build() reproduces the state of the first
build() whenever that state is below `SwapchainLost` (teardown() is then a
no-op), and also whenever the window started below `SwapchainLost` and the
first build() ended at `SurfaceLost` with a surface the device scores
positively (teardown() then rebuilds through `NoSurface` back to
`SurfaceLost`); it fails when the first build() ends at `DeviceLost` — a
surface scoring zero or less — because teardown() then releases the device
reference and the second build() stops at `NoDevice`. -/
theorem build_teardown_idempotent (env : Env) (w w1 : Window) (tr1 : List Event) :
    (w.state = State.ReadyToRender → build env w = .ok (w, [])) ∧
    (w.state.ord < State.SwapchainLost.ord → teardown w = (w, [])) ∧
    (build env w = .ok (w1, tr1) → w1.state.ord < State.SwapchainLost.ord →
      ∃ w2 tr2, build env (teardown w1).1 = .ok (w2, tr2) ∧ w2.state = w1.state) ∧
    (w.state.ord < State.SwapchainLost.ord → build env w = .ok (w1, tr1) →
      w1.state = State.SurfaceLost → 0 < env.surfaceScore →
      ∃ w2 tr2, build env (teardown w1).1 = .ok (w2, tr2) ∧ w2.state = w1.state) := by
  refine ⟨?_, ?_, ?_, ?_⟩
  · intro h
    simp [build, buildStageSurface, buildStageSwapchain, h]
  · intro h
    unfold teardown
    rw [if_neg (by omega)]
  · intro hb hlt
    have ht : teardown w1 = (w1, []) := by
      unfold teardown
      rw [if_neg (by omega)]
    rw [ht]
    show ∃ w2 tr2, build env w1 = .ok (w2, tr2) ∧ w2.state = w1.state
    rcases hs : w.state with _ | _ | _ | _ | _ | _ | _ | _ | _
    case NoDevice =>
      rcases Decidable.em (w.hasDevice = true) with hd | hd
      · rw [show build env w = buildStageSurface env {w with state := State.NoSurface}
            stageBuildsForNewDevice from by simp [build, hs, hd]] at hb
        exact buildStageSurface_rebuild env _ _ _ _ rfl hb hlt
      · have hb1 : build env w = .ok (w, []) := by
          simp [build, buildStageSurface, buildStageSwapchain, hs,
            Bool.not_eq_true w.hasDevice ▸ hd]
        rw [hb1] at hb
        simp only [Except.ok.injEq, Prod.mk.injEq] at hb
        obtain ⟨hx, -⟩ := hb
        subst hx
        exact ⟨w, [], hb1, rfl⟩
    case NoSurface =>
      rw [show build env w = buildStageSurface env w [] from by simp [build, hs]] at hb
      exact buildStageSurface_rebuild env _ _ _ _ hs hb hlt
    case NoSwapchain =>
      rw [show build env w = buildStageSwapchain env w [] from by
        simp [build, buildStageSurface, hs]] at hb
      obtain ⟨hor, w2, tr2, hrun, hst⟩ :=
        buildStageSwapchain_rebuild env _ _ _ _ hs hb hlt
      have hbw1 : build env w1 = buildStageSwapchain env w1 [] := by
        rcases hor with hx | hx <;> simp [build, buildStageSurface, hx]
      exact ⟨w2, tr2, by rw [hbw1]; exact hrun, hst⟩
    all_goals
      have hb1 : build env w = .ok (w, []) := by
        simp [build, buildStageSurface, buildStageSwapchain, hs]
      rw [hb1] at hb
      simp only [Except.ok.injEq, Prod.mk.injEq] at hb
      obtain ⟨hx, -⟩ := hb
      subst hx
      exact ⟨w, [], hb1, rfl⟩
  · intro hstart hb hsl hscore
    rw [hsl]
    rcases hs : w.state with _ | _ | _ | _ | _ | _ | _ | _ | _
    case NoDevice =>
      rcases Decidable.em (w.hasDevice = true) with hd | hd
      · rw [show build env w = buildStageSurface env {w with state := State.NoSurface}
            stageBuildsForNewDevice from by simp [build, hs, hd]] at hb
        exact buildStageSurface_rebuild_surfaceLost env _ _ _ _ rfl hb hsl hscore
      · have hb1 : build env w = .ok (w, []) := by
          simp [build, buildStageSurface, buildStageSwapchain, hs,
            Bool.not_eq_true w.hasDevice ▸ hd]
        rw [hb1] at hb
        simp only [Except.ok.injEq, Prod.mk.injEq] at hb
        obtain ⟨hx, -⟩ := hb
        subst hx
        rw [hs] at hsl
        exact absurd hsl (by decide)
    case NoSurface =>
      rw [show build env w = buildStageSurface env w [] from by simp [build, hs]] at hb
      exact buildStageSurface_rebuild_surfaceLost env _ _ _ _ hs hb hsl hscore
    case NoSwapchain =>
      rw [show build env w = buildStageSwapchain env w [] from by
        simp [build, buildStageSurface, hs]] at hb
      exact buildStageSwapchain_rebuild_surfaceLost env _ _ _ _ hs hb hsl hscore
    case SwapchainLost => rw [hs] at hstart; simp [State.ord] at hstart
    case SurfaceLost => rw [hs] at hstart; simp [State.ord] at hstart
    case DeviceLost => rw [hs] at hstart; simp [State.ord] at hstart
    case WindowLost => rw [hs] at hstart; simp [State.ord] at hstart
    all_goals
      have hb1 : build env w = .ok (w, []) := by
        simp [build, buildStageSurface, buildStageSwapchain, hs]
      rw [hb1] at hb
      simp only [Except.ok.injEq, Prod.mk.injEq] at hb
      obtain ⟨hx, -⟩ := hb
      subst hx
      rw [hs] at hsl
      exact absurd hsl (by decide)

/-- Counterexample to C9 as stated: starting at `NoSurface` with a surface the
device scores zero, the first build() ends at `DeviceLost`; the intervening
teardown() then releases the device reference, so the second build() gets
stuck at `NoDevice` — a different state from the first build()'s `DeviceLost`
under identical external conditions. -/
theorem build_teardown_build_diverges_after_device_lost :
    ∃ w1 tr1 w2 tr2,
      build {goodEnv with surfaceScore := 0} (windowAt State.NoSurface) =
        .ok (w1, tr1) ∧
      w1.state = State.DeviceLost ∧
      build {goodEnv with surfaceScore := 0} (teardown w1).1 = .ok (w2, tr2) ∧
      w2.state ≠ w1.state :=
  ⟨_, _, _, _, rfl, rfl, rfl, by decide⟩

/-- Result window of the first build() from the base window under the
all-success environment, for evaluating C9 at a concrete input. -/
def firstBuildWindow : Window :=
  match build goodEnv baseWindow with
  | .ok (w1, _) => w1
  | .error _ => baseWindow

/-- Result trace of the first build() from the base window under the
all-success environment. -/
def firstBuildTrace : List Event :=
  match build goodEnv baseWindow with
  | .ok (_, tr) => tr
  | .error _ => []

/-- External conditions in which the swapchain creation reports that the
surface was lost. -/
def surfaceLostEnv : Env :=
  {goodEnv with createSwapchainOutcome := SwapchainCreateOutcome.errorSurfaceLostKHR}

/-- Result window of a build() from the base window when swapchain creation
reports surface-lost, for evaluating C9 at a concrete input. -/
def slBuildWindow : Window :=
  match build surfaceLostEnv baseWindow with
  | .ok (w1, _) => w1
  | .error _ => baseWindow

/-- Result trace of a build() from the base window when swapchain creation
reports surface-lost. -/
def slBuildTrace : List Event :=
  match build surfaceLostEnv baseWindow with
  | .ok (_, tr) => tr
  | .error _ => []

/-- Witness for C9 (amended): from `NoDevice` with a device attached the
first build() reaches `ReadyToRender` and teardown() followed by build()
reproduces that state; and when swapchain creation reports surface-lost the
first build() ends at `SurfaceLost` and teardown() followed by build()
reproduces that state as well. -/
theorem build_teardown_idempotent_witness :
    (∃ w2 tr2, build goodEnv (teardown firstBuildWindow).1 = .ok (w2, tr2) ∧
      w2.state = firstBuildWindow.state) ∧
    (∃ w2 tr2, build surfaceLostEnv (teardown slBuildWindow).1 = .ok (w2, tr2) ∧
      w2.state = slBuildWindow.state) :=
  ⟨(build_teardown_idempotent goodEnv baseWindow firstBuildWindow
      firstBuildTrace).2.2.1 rfl (by decide),
   (build_teardown_idempotent surfaceLostEnv baseWindow slBuildWindow
      slBuildTrace).2.2.2 (by decide) rfl (by decide) (by decide)⟩

theorem acquire_inv (env : Env) (u v : Window) (oi : Option Nat) (trx : List Event)
    (h : acquireNextImageFromSwapchain env u = .ok (v, oi, trx)) :
    trx = [Event.acquire 0] := by
  unfold acquireNextImageFromSwapchain at h
  split at h <;> first
    | (simp only [Except.ok.injEq, Prod.mk.injEq] at h; exact h.2.2.symm)
    | simp at h

theorem present_inv (env : Env) (u v : Window) (i : Nat) (s : Semaphore)
    (trp : List Event)
    (h : presentImageToQueue env u i s = .ok (v, trp)) :
    trp = [Event.present [s]] := by
  unfold presentImageToQueue at h
  split at h <;> first
    | (simp only [Except.ok.injEq, Prod.mk.injEq] at h; exact h.2.symm)
    | simp at h

theorem renderSizeCheck_inv (env : Env) (u v : Window) (trc : List Event)
    (h : renderSizeCheck env u = (v, trc)) :
    (trc = [Event.resizeCheck] ∨ trc = [Event.resizeCheck, Event.setWindowSize]) ∧
      v.state = u.state ∧ v.requestRedraw = u.requestRedraw := by
  unfold renderSizeCheck at h
  split at h
  · simp only [Prod.mk.injEq] at h
    obtain ⟨h1, h2⟩ := h
    subst h1
    subst h2
    exact ⟨Or.inr rfl, rfl, rfl⟩
  · split at h <;>
    · simp only [Prod.mk.injEq] at h
      obtain ⟨h1, h2⟩ := h
      subst h1
      subst h2
      first
        | exact ⟨Or.inr rfl, rfl, rfl⟩
        | exact ⟨Or.inl rfl, rfl, rfl⟩

theorem any_eq_false_of_all_excludes (p q : Event → Bool)
    (hpq : ∀ e, p e = true → q e = false) :
    ∀ l : List Event, l.all p = true → l.any q = false := by
  intro l
  induction l with
  | nil => intro _; rfl
  | cons a t ih =>
    intro h
    simp only [List.all_cons, Bool.and_eq_true] at h
    simp [List.any_cons, hpq a h.1, ih h.2]

theorem filter_eq_nil_of_all_excludes (p q : Event → Bool)
    (hpq : ∀ e, p e = true → q e = false) :
    ∀ l : List Event, l.all p = true → l.filter q = [] := by
  intro l
  induction l with
  | nil => intro _; rfl
  | cons a t ih =>
    intro h
    simp only [List.all_cons, Bool.and_eq_true] at h
    simp [List.filter_cons, hpq a h.1, ih h.2]

theorem teardownSide_not_gpu (e : Event) (h : Event.isTeardownSide e = true) :
    Event.isGpuFrameWork e = false := by
  cases e <;> simp_all [Event.isTeardownSide, Event.isGpuFrameWork]

theorem buildSide_not_gpu (e : Event) (h : Event.isBuildSide e = true) :
    Event.isGpuFrameWork e = false := by
  cases e <;> simp_all [Event.isBuildSide, Event.isGpuFrameWork]

theorem teardownSide_not_fenceOp (e : Event) (h : Event.isTeardownSide e = true) :
    Event.isFenceOp e = false := by
  cases e <;> simp_all [Event.isTeardownSide, Event.isFenceOp]

theorem buildSide_not_fenceOp (e : Event) (h : Event.isBuildSide e = true) :
    Event.isFenceOp e = false := by
  cases e <;> simp_all [Event.isBuildSide, Event.isFenceOp]

theorem render_trace_decomposition (env : Env) (w w2 : Window) (tr : List Event)
    (h : render env w = .ok (w2, tr)) :
    ∃ w1 tr1 wB trB,
      teardown w = (w1, tr1) ∧ build env w1 = .ok (wB, trB) ∧
      ((wB.state ≠ State.ReadyToRender ∧ tr = tr1 ++ trB) ∨
       (wB.state = State.ReadyToRender ∧
        ∃ trC, (trC = [Event.resizeCheck] ∨
            trC = [Event.resizeCheck, Event.setWindowSize]) ∧
          ((env.widget.update_layout_result = false ∧ w.requestRedraw = false ∧
              tr = tr1 ++ trB ++ trC) ∨
           ((env.widget.update_layout_result = true ∨ w.requestRedraw = true) ∧
            (tr = tr1 ++ trB ++ trC ++ [Event.acquire 0] ∨
             ∃ trT, trT.all Event.isTeardownSide = true ∧
               tr = tr1 ++ trB ++ trC ++ [Event.acquire 0] ++
                 [Event.fenceWait, Event.fenceReset, Event.draw,
                  Event.recordCommandBuffer,
                  Event.submit [(Semaphore.imageAvailable,
                    PipelineStageFlag.colorAttachmentOutput)] 1
                    [Semaphore.renderFinished] false,
                  Event.submit [] 0 [] true] ++
                 [Event.present [Semaphore.renderFinished]] ++ trT))))) := by
  rcases htd : teardown w with ⟨w1, tr1⟩
  unfold render at h
  rw [htd] at h
  simp only [] at h
  cases hbd : build env w1 with
  | error e =>
    rw [hbd] at h
    exact Except.noConfusion h
  | ok p =>
    obtain ⟨wB, trB⟩ := p
    rw [hbd] at h
    simp only [] at h
    refine ⟨w1, tr1, wB, trB, rfl, hbd, ?_⟩
    have hw1 : w1.requestRedraw = w.requestRedraw := by
      have hx := teardown_fst_requestRedraw w
      rw [htd] at hx
      exact hx
    have hwB : wB.requestRedraw = w.requestRedraw :=
      (build_requestRedraw env w1 wB trB hbd).trans hw1
    split at h
    · rename_i hne
      simp only [Except.ok.injEq, Prod.mk.injEq] at h
      exact Or.inl ⟨hne, h.2.symm⟩
    · rename_i hne
      have hready : wB.state = State.ReadyToRender := not_not.mp hne
      rcases hrs : renderSizeCheck env {wB with requestSettingChange := false}
        with ⟨wC, trC⟩
      rw [hrs] at h
      obtain ⟨htrC, -, hrrC⟩ := renderSizeCheck_inv env _ _ _ hrs
      have hflag : wC.requestRedraw = w.requestRedraw := by
        rw [hrrC]
        exact hwB
      refine Or.inr ⟨hready, trC, htrC, ?_⟩
      split at h
      · rename_i hcond
        simp only [Bool.not_eq_eq_eq_not, Bool.not_true, Bool.or_eq_false_iff] at hcond
        refine Or.inl ⟨hcond.1, ?_, ?_⟩
        · rw [← hflag]
          exact hcond.2
        · simp only [Except.ok.injEq, Prod.mk.injEq] at h
          exact h.2.symm
      · rename_i hcond
        simp only [Bool.not_eq_eq_eq_not, Bool.not_true, Bool.or_eq_false_iff,
          not_and_or, Bool.not_eq_false] at hcond
        have hcond2 : env.widget.update_layout_result = true ∨
            w.requestRedraw = true := by
          rw [← hflag]
          rcases hcond with hx | hx
          · exact Or.inl hx
          · exact Or.inr hx
        refine Or.inr ⟨hcond2, ?_⟩
        split at h
        · simp at h
        · rename_i wD trD heqA
          have := acquire_inv env _ _ _ _ heqA
          subst this
          simp only [Except.ok.injEq, Prod.mk.injEq] at h
          exact Or.inl h.2.symm
        · rename_i wD idx trD heqA
          have := acquire_inv env _ _ _ _ heqA
          subst this
          split at h
          · simp at h
          · rename_i wE trE heqP
            have := present_inv env _ _ _ _ _ heqP
            subst this
            simp only [Except.ok.injEq, Prod.mk.injEq] at h
            exact Or.inr ⟨(teardown wE).2, teardown_trace_isTeardownSide wE, h.2.symm⟩

/-- C1, amended: every render_frame tick first runs teardown() and then
build(); GPU frame work (swapchain-image acquire, fence wait or reset,
command-buffer recording, submit, present) happens only when the state after
build() is `ReadyToRender` and either the widget layout reported a needed
redraw or a redraw was requested; and the preferred-size/resize check is
performed on the ticks whose state after build() is `ReadyToRender` —
including those that skip the GPU work because no redraw is needed — while a
tick that never reaches `ReadyToRender` returns before the resize check. -/
theorem render_gpu_work_guarded (env : Env) (w w2 : Window) (tr : List Event)
    (h : render env w = .ok (w2, tr)) :
    ∃ w1 tr1 wB trB rest,
      teardown w = (w1, tr1) ∧ build env w1 = .ok (wB, trB) ∧
      tr = tr1 ++ trB ++ rest ∧
      (tr.any Event.isGpuFrameWork = true →
        wB.state = State.ReadyToRender ∧
        (env.widget.update_layout_result = true ∨ w.requestRedraw = true)) ∧
      (wB.state = State.ReadyToRender → Event.resizeCheck ∈ tr) := by
  obtain ⟨w1, tr1, wB, trB, htd, hbd, hcase⟩ :=
    render_trace_decomposition env w w2 tr h
  have h1 : tr1.any Event.isGpuFrameWork = false := by
    have hx := teardown_trace_isTeardownSide w
    rw [htd] at hx
    exact any_eq_false_of_all_excludes _ _ teardownSide_not_gpu tr1 hx
  have hB : trB.any Event.isGpuFrameWork = false :=
    any_eq_false_of_all_excludes _ _ buildSide_not_gpu trB
      (build_trace_isBuildSide env w1 wB trB hbd)
  rcases hcase with ⟨hne, htr⟩ | ⟨hready, trC, htrC, hsub⟩
  · refine ⟨w1, tr1, wB, trB, [], htd, hbd, by rw [htr]; simp, ?_, ?_⟩
    · intro hg
      rw [htr] at hg
      simp [List.any_append, h1, hB] at hg
    · intro hrt
      exact absurd hrt hne
  · have hC : trC.any Event.isGpuFrameWork = false := by
      rcases htrC with hx | hx <;> subst hx <;> rfl
    rcases hsub with ⟨hl0, hr0, htr⟩ | ⟨hcond, htr | ⟨trT, hT, htr⟩⟩
    · refine ⟨w1, tr1, wB, trB, trC, htd, hbd, htr, ?_, ?_⟩
      · intro hg
        rw [htr] at hg
        simp [List.any_append, h1, hB, hC] at hg
      · intro _
        rw [htr]
        rcases htrC with hx | hx <;> subst hx <;> simp
    · refine ⟨w1, tr1, wB, trB, trC ++ [Event.acquire 0], htd, hbd,
        by rw [htr]; simp, ?_, ?_⟩
      · intro _
        exact ⟨hready, hcond⟩
      · intro _
        rw [htr]
        rcases htrC with hx | hx <;> subst hx <;> simp
    · refine ⟨w1, tr1, wB, trB,
        trC ++ [Event.acquire 0] ++
          [Event.fenceWait, Event.fenceReset, Event.draw, Event.recordCommandBuffer,
           Event.submit [(Semaphore.imageAvailable,
             PipelineStageFlag.colorAttachmentOutput)] 1
             [Semaphore.renderFinished] false,
           Event.submit [] 0 [] true] ++
          [Event.present [Semaphore.renderFinished]] ++ trT,
        htd, hbd, by rw [htr]; simp, ?_, ?_⟩
      · intro _
        exact ⟨hready, hcond⟩
      · intro _
        rw [htr]
        rcases htrC with hx | hx <;> subst hx <;> simp

/-- Counterexample to C1 as stated: a tick whose build() never reaches
`ReadyToRender` (here: no device attached, so the state stays `NoDevice`)
skips the GPU work but also returns before the preferred-size/resize check,
so the resize check is not performed on every GPU-skipping tick. -/
theorem render_not_ready_skips_resize_check :
    ∃ w2 tr, render goodEnv {baseWindow with hasDevice := false} = .ok (w2, tr) ∧
      tr.any Event.isGpuFrameWork = false ∧ Event.resizeCheck ∉ tr :=
  ⟨_, _, rfl, rfl, by decide⟩

/-- Witness for C1 (amended) on an idle ready tick from the base window. -/
theorem render_gpu_work_guarded_witness :
    ∃ w1 tr1 wB trB rest,
      teardown baseWindow = (w1, tr1) ∧ build goodEnv w1 = .ok (wB, trB) ∧
      renderOkTrace goodEnv baseWindow = tr1 ++ trB ++ rest ∧
      ((renderOkTrace goodEnv baseWindow).any Event.isGpuFrameWork = true →
        wB.state = State.ReadyToRender ∧
        (goodEnv.widget.update_layout_result = true ∨
          baseWindow.requestRedraw = true)) ∧
      (wB.state = State.ReadyToRender →
        Event.resizeCheck ∈ renderOkTrace goodEnv baseWindow) :=
  render_gpu_work_guarded goodEnv baseWindow (renderOkWindow goodEnv baseWindow)
    (renderOkTrace goodEnv baseWindow) rfl

/-- C8: the per-frame command-buffer submission to the graphics queue waits on
the image-available semaphore at the color-attachment-output pipeline stage
and signals the render-finished semaphore; it is followed on the same queue by
the empty submission that signals the render-finished fence, and only then is
the acquired image presented waiting on the render-finished semaphore. -/
theorem submit_protocol_order (env : Env) (w : Window)
    (hstate : w.state = State.ReadyToRender)
    (hredraw : env.widget.update_layout_result = true)
    (hacq : env.acquireOutcome = AcquireOutcome.success)
    (hpres : env.presentOutcome = PresentOutcome.success) :
    ∃ w2 pre, render env w = .ok (w2, pre ++
      [Event.submit [(Semaphore.imageAvailable,
          PipelineStageFlag.colorAttachmentOutput)] 1
          [Semaphore.renderFinished] false,
       Event.submit [] 0 [] true,
       Event.present [Semaphore.renderFinished]]) := by
  have ht : teardown w = (w, []) := by
    unfold teardown
    rw [if_neg (by rw [hstate]; decide)]
  have hbuild : build env w = .ok (w, []) := by
    simp [build, buildStageSurface, buildStageSwapchain, hstate]
  rcases hrs : renderSizeCheck env {w with requestSettingChange := false}
    with ⟨wC, trC⟩
  obtain ⟨-, hst, -⟩ := renderSizeCheck_inv env _ _ _ hrs
  have hsC : wC.state = State.ReadyToRender := hst.trans hstate
  rw [hstate] at hrs
  have hacq2 : ∀ u : Window, acquireNextImageFromSwapchain env u =
      .ok (u, some env.acquireImageIndex, [Event.acquire 0]) := fun u => by
    simp [acquireNextImageFromSwapchain, hacq]
  have hpres2 : ∀ (u : Window) (i : Nat) (s : Semaphore),
      presentImageToQueue env u i s = .ok (u, [Event.present [s]]) := fun u i s => by
    simp [presentImageToQueue, hpres]
  have htd2 : ∀ u : Window, u.state = State.ReadyToRender → teardown u = (u, []) :=
    fun u hu => by
      unfold teardown
      rw [if_neg (by rw [hu]; decide)]
  refine ⟨{wC with requestLayout := false, requestRedraw := false},
    trC ++ [Event.acquire 0, Event.fenceWait, Event.fenceReset, Event.draw,
      Event.recordCommandBuffer], ?_⟩
  simp [render, ht, hbuild, hrs, hredraw, hacq2, hpres2, htd2, hsC, hstate]

/-- External conditions identical to the all-success environment except the
widget reports that a redraw is needed. -/
def redrawEnv : Env :=
  {goodEnv with widget := {goodWidget with update_layout_result := true}}

/-- Witness for C8 on a ready window with a pending redraw. -/
theorem submit_protocol_order_witness :
    ∃ w2 pre, render redrawEnv (windowAt State.ReadyToRender) = .ok (w2, pre ++
      [Event.submit [(Semaphore.imageAvailable,
          PipelineStageFlag.colorAttachmentOutput)] 1
          [Semaphore.renderFinished] false,
       Event.submit [] 0 [] true,
       Event.present [Semaphore.renderFinished]]) :=
  submit_protocol_order redrawEnv (windowAt State.ReadyToRender) rfl rfl rfl rfl

/-- C10: the render-finished fence is created in the signaled state when the
synchronization objects are built; and on every render tick the fence
operations are either absent entirely or exactly the sequence wait, reset,
fence-signaling submission, so the fence is reset only after having been
waited on and is then handed to a queue submission that re-signals it before
render returns — the wait only ever waits on previously submitted work or on
the initially-signaled fence. -/
theorem renderFinishedFence_protocol (env : Env) (w w2 : Window) (tr : List Event) :
    (buildSemaphores w).2 = [Event.createSemaphore, Event.createSemaphore,
      Event.createFence true] ∧
    (render env w = .ok (w2, tr) →
      tr.filter Event.isFenceOp = [] ∨
      tr.filter Event.isFenceOp =
        [Event.fenceWait, Event.fenceReset, Event.submit [] 0 [] true]) := by
  refine ⟨rfl, fun h => ?_⟩
  obtain ⟨w1, tr1, wB, trB, htd, hbd, hcase⟩ :=
    render_trace_decomposition env w w2 tr h
  have h1 : tr1.filter Event.isFenceOp = [] := by
    have hx := teardown_trace_isTeardownSide w
    rw [htd] at hx
    exact filter_eq_nil_of_all_excludes _ _ teardownSide_not_fenceOp tr1 hx
  have hB : trB.filter Event.isFenceOp = [] :=
    filter_eq_nil_of_all_excludes _ _ buildSide_not_fenceOp trB
      (build_trace_isBuildSide env w1 wB trB hbd)
  rcases hcase with ⟨-, htr⟩ | ⟨-, trC, htrC, hsub⟩
  · left
    rw [htr]
    simp [List.filter_append, h1, hB]
  · have hC : trC.filter Event.isFenceOp = [] := by
      rcases htrC with hx | hx <;> subst hx <;> rfl
    rcases hsub with ⟨-, -, htr⟩ | ⟨-, htr | ⟨trT, hT, htr⟩⟩
    · left
      rw [htr]
      simp [List.filter_append, h1, hB, hC]
    · left
      rw [htr]
      simp [List.filter_append, h1, hB, hC, Event.isFenceOp]
    · right
      have hTf : trT.filter Event.isFenceOp = [] :=
        filter_eq_nil_of_all_excludes _ _ teardownSide_not_fenceOp trT hT
      rw [htr]
      simp [List.filter_append, h1, hB, hC, hTf, Event.isFenceOp]

/-- Witness for C10 on a ready window with a pending redraw. -/
theorem renderFinishedFence_protocol_witness :
    (buildSemaphores (windowAt State.ReadyToRender)).2 =
      [Event.createSemaphore, Event.createSemaphore, Event.createFence true] ∧
    ((renderOkTrace redrawEnv (windowAt State.ReadyToRender)).filter
        Event.isFenceOp = [] ∨
      (renderOkTrace redrawEnv (windowAt State.ReadyToRender)).filter
        Event.isFenceOp =
        [Event.fenceWait, Event.fenceReset, Event.submit [] 0 [] true]) := by
  have h := renderFinishedFence_protocol redrawEnv (windowAt State.ReadyToRender)
    (renderOkWindow redrawEnv (windowAt State.ReadyToRender))
    (renderOkTrace redrawEnv (windowAt State.ReadyToRender))
  exact ⟨h.1, h.2 rfl⟩

end TTauriGUI
